import Mathlib

/-!
Verification of the server-side UNO game engine (`src/server/gameLogic.js`).

The JavaScript source is shallowly embedded: every pure function becomes a
Lean function and the stateful `Game` class becomes explicit state passing
over a `Game` structure.  Randomness (`Math.random` inside `shuffleDeck`
and the random color for a wild first card) is threaded as oracle
parameters.  `setTimeout`-deferred re-arms of the turn timer are folded
into the operation that schedules them (they always run before the next
engine entry in the single-threaded event loop).

Representation notes:
* `deck` and `discardPile` are JS arrays popped/pushed at the *end*; we
  store them with that end first, so `pop` is `head` and `push` is `cons`.
  Hands are kept in JS order (index 0 first) because `playCard` indexes
  into them.
* JS `deck.pop()` on an empty array yields `undefined`, and the engine
  then does `hand.push(undefined)`, growing the hand array without adding
  a card.  We record those `undefined` entries in the player's `junk`
  counter; the JS `hand.length` is `hand.length + junk` (`handLen`).
-/

namespace Soluno

inductive Color where
  | red | green | blue | yellow | wild
deriving DecidableEq, Repr

inductive Value where
  | num (n : Nat)
  | skip | reverse | draw2 | wild | draw4
deriving DecidableEq, Repr

structure Card where
  color : Color
  value : Value
deriving DecidableEq, Repr

inductive Status where
  | dealing | playing | finished
deriving DecidableEq, Repr

structure Player where
  id : String
  socketId : String
  hand : List Card
  /-- Number of `undefined` entries the JS engine has pushed into this
  hand array (`hand.push(deck.pop())` with an empty deck). -/
  junk : Nat
  name : String
  wallet : Option String
  hasUno : Bool
  disconnected : Bool
  originalName : Option String
deriving DecidableEq, Repr

/-- The JS `player.hand.length`: real cards plus `undefined` entries. -/
def handLen (p : Player) : Nat := p.hand.length + p.junk

structure GameState where
  players : List Player
  /-- Stored with the JS array's pop end first. -/
  deck : List Card
  /-- Stored with the JS array's push end (the top card) first. -/
  discardPile : List Card
  topCard : Option Card
  currentPlayerIndex : Nat
  direction : Int
  status : Status
  winner : Option Nat
  currentColor : Option Color
  hasDrawnPlayableCard : Bool
  hasPlayedCardThisTurn : Bool
  waitingForUno : Bool
deriving DecidableEq, Repr

/-- The `Game` class: the game state plus the turn-timer fields. -/
structure Game where
  gameState : GameState
  turnStartTime : Option Nat
  turnExpiresAt : Option Nat
deriving DecidableEq, Repr

/-- `turnTimeLimit` (15000 ms). -/
def turnTimeLimit : Nat := 15000

/-- `createDeck()`: the fixed 108-card deck, in JS push order. -/
def createDeck : List Card :=
  let colors : List Color := [.red, .green, .blue, .yellow]
  let values : List Value :=
    [.num 0, .num 1, .num 2, .num 3, .num 4, .num 5, .num 6, .num 7,
     .num 8, .num 9, .skip, .reverse, .draw2]
  (colors.flatMap fun color =>
    values.flatMap fun value =>
      let count := if value = .num 0 then 1 else 2
      List.replicate count { color := color, value := value }) ++
  (List.replicate 4 [⟨.wild, .wild⟩, ⟨.wild, .draw4⟩]).flatten

/-- `canPlayCard(card, topCard, currentColor, playerHand)`.
`currentColor` is an `Option` because the JS field starts out `null`;
`===` against `null` is simply false for every real color. -/
def canPlayCard (card : Card) (topCard : Card) (currentColor : Option Color)
    (playerHand : List Card) : Bool :=
  if card.color = .wild ∧ card.value = .draw4 then
    if playerHand.length > 0 then
      if playerHand.any fun handCard =>
          some handCard.color = currentColor ∧ handCard.color ≠ .wild then
        false
      else true
    else true
  else if card.color = .wild then true
  else if some card.color = currentColor then true
  else if card.value = topCard.value ∧ card.color ≠ .wild then true
  else false

/-- `hasPlayableCard(playerHand, topCard, currentColor)`. -/
def hasPlayableCard (playerHand : List Card) (topCard : Card)
    (currentColor : Option Color) : Bool :=
  if playerHand.length = 0 then false
  else playerHand.any fun card => canPlayCard card topCard currentColor playerHand

/-- `reshuffleDeck(gameState)`: pop and keep the top card, shuffle the rest
of the discard pile into the deck.  `shuf` is the random permutation oracle
of `shuffleDeck`, applied to the JS-order array. -/
def reshuffleDeck (shuf : List Card → List Card) (gs : GameState) : GameState :=
  if gs.discardPile.length ≤ 1 then gs  -- logs "Cannot reshuffle" and returns
  else
    match gs.discardPile with
    | [] => gs
    | topCard :: rest =>
        { gs with deck := (shuf rest.reverse).reverse, discardPile := [topCard] }

/-- JS `(i + d + n) % n` on array indices (the operand is nonnegative for
`d ∈ {1, -1}` and `n ≥ 1`, so JS remainder and Euclidean mod agree). -/
def stepIdx (n : Nat) (d : Int) (i : Nat) : Nat :=
  (((i : Int) + d + n) % n).toNat

/-- `nextTurn(gameState)`: advance the seat index and reset the per-turn
flags, clearing every player's `hasUno`. -/
def nextTurn (gs : GameState) : GameState :=
  { gs with
    currentPlayerIndex := stepIdx gs.players.length gs.direction gs.currentPlayerIndex
    hasDrawnPlayableCard := false
    hasPlayedCardThisTurn := false
    waitingForUno := false
    players := gs.players.map fun player => { player with hasUno := false } }

/-- `clearTurnTimer()`. -/
def clearTurnTimer (g : Game) : Game :=
  { g with turnStartTime := none, turnExpiresAt := none }

/-- `startTurnTimer()`: arm a fresh 15-second deadline (only while playing
and with a valid seat index). -/
def startTurnTimer (now : Nat) (g : Game) : Game :=
  let g := clearTurnTimer g
  if g.gameState.status ≠ .playing then g
  else if g.gameState.players.length = 0 then g
  else if g.gameState.players.length ≤ g.gameState.currentPlayerIndex then g
  else { g with turnStartTime := some now, turnExpiresAt := some (now + turnTimeLimit) }

/-- `startTurnTimerWithDuration(duration)`: re-arm with a given remaining
duration instead of the full limit. -/
def startTurnTimerWithDuration (now : Nat) (duration : Nat) (g : Game) : Game :=
  let g := clearTurnTimer g
  if g.gameState.status ≠ .playing then g
  else if g.gameState.players.length = 0 then g
  else if g.gameState.players.length ≤ g.gameState.currentPlayerIndex then g
  else { g with turnStartTime := some now, turnExpiresAt := some (now + duration) }

/-- One `hand.push(deck.pop())` with the preceding empty-deck reshuffle, for
seat `i`.  When the deck is empty even after the reshuffle attempt, the JS
pop yields `undefined` and the push records a `junk` entry. -/
def drawOne (shuf : List Card → List Card) (gs : GameState) (i : Nat) : GameState :=
  let gs := if gs.deck.length = 0 then reshuffleDeck shuf gs else gs
  match gs.players.get? i with
  | none => gs  -- unreachable: callers pass a valid seat index
  | some p =>
    match gs.deck with
    | [] => { gs with players := gs.players.set i { p with junk := p.junk + 1 } }
    | card :: rest =>
        { gs with deck := rest, players := gs.players.set i { p with hand := p.hand ++ [card] } }

/-- `dealCards()` helper: give one card off the deck to seat `i` if any is left. -/
def dealOne (gs : GameState) (i : Nat) : GameState :=
  match gs.deck with
  | [] => gs
  | card :: rest =>
    match gs.players.get? i with
    | none => gs
    | some p =>
        { gs with deck := rest, players := gs.players.set i { p with hand := p.hand ++ [card] } }

/-- `dealCards()`: seven rounds, one card per player per round. -/
def dealCards (gs : GameState) : GameState :=
  (List.range 7).foldl
    (fun gs _ => (List.range gs.players.length).foldl (fun gs i => dealOne gs i) gs) gs

/-- The `Game` constructor.  `shuf` is the `shuffleDeck` randomness oracle
(a permutation of the JS-order deck). -/
def Game.new (playerIds playerNames : List String) (playerWallets : List (Option String))
    (shuf : List Card → List Card) : Game :=
  let players := (List.range playerIds.length).map fun index =>
    { id := (playerIds.get? index).getD ""
      socketId := (playerIds.get? index).getD ""
      hand := []
      junk := 0
      name :=
        let nm := ((playerNames.get? index).getD "")
        if nm = "" then "Player " ++ toString (index + 1) else nm
      wallet := ((playerWallets.get? index).getD none)
      hasUno := false
      disconnected := false
      originalName := none }
  let gs : GameState :=
    { players := players
      deck := (shuf createDeck).reverse
      discardPile := []
      topCard := none
      currentPlayerIndex := 0
      direction := 1
      status := .dealing
      winner := none
      currentColor := none
      hasDrawnPlayableCard := false
      hasPlayedCardThisTurn := false
      waitingForUno := false }
  { gameState := dealCards gs, turnStartTime := none, turnExpiresAt := none }

/-- `drawFirstCard()`: reveal the opening card, resolve its special effect,
enter the `playing` state and (after the dealing-animation delay, folded in)
start the first turn timer.  `randColor` is the random color oracle used
when the first card is a wild. -/
def drawFirstCard (now : Nat) (randColor : Color) (shuf : List Card → List Card)
    (g : Game) : Game :=
  let gs := g.gameState
  let gs := if gs.deck.length = 0 then reshuffleDeck shuf gs else gs
  match gs.deck with
  | [] => g  -- unreachable: the original would throw reading `undefined.color`
  | card :: rest =>
    let gs := { gs with deck := rest }
    let firstCard := if card.color = .wild then { card with color := randColor } else card
    let gs :=
      if firstCard.value = .skip then
        { gs with currentPlayerIndex :=
            (((gs.currentPlayerIndex : Int) + gs.direction) % gs.players.length).toNat }
      else if firstCard.value = .reverse then
        if gs.players.length = 2 then
          { gs with currentPlayerIndex :=
              (((gs.currentPlayerIndex : Int) + gs.direction) % gs.players.length).toNat }
        else { gs with direction := -1 }
      else gs
    let gs := { gs with
      discardPile := firstCard :: gs.discardPile
      topCard := some firstCard
      currentColor := some firstCard.color
      status := .playing }
    startTurnTimer now { g with gameState := gs }

/-- Outcome of the skip-disconnected-players loop in `handleTurnTimeout`. -/
inductive SkipOut where
  | found (i : Nat)
  | pause (i : Nat)
deriving DecidableEq, Repr

/-- `players[i].disconnected` (a missing property reads as false). -/
def discAt (ps : List Player) (i : Nat) : Bool :=
  ((ps.get? i).map Player.disconnected).getD false

/-- The `while (players[currentPlayerIndex].disconnected)` loop of
`handleTurnTimeout`: step in direction order, pausing when the step would
wrap back to the seat (`orig`) that timed out.  `fuel` only bounds the
recursion; with `fuel = players.length` it never runs out for `d = ±1`
because the pause check fires first. -/
def skipLoop (ps : List Player) (d : Int) (orig : Nat) : Nat → Nat → SkipOut
  | cpi, 0 => .found cpi
  | cpi, fuel + 1 =>
    if discAt ps cpi then
      let next := stepIdx ps.length d cpi
      if next = orig then .pause cpi
      else skipLoop ps d orig next fuel
    else .found cpi

/-- The penalty part of `handleTurnTimeout` (before the turn advances). -/
def timeoutPenalty (shuf : List Card → List Card) (gs : GameState) : GameState :=
  match gs.players.get? gs.currentPlayerIndex with
  | none => gs  -- unreachable: the seat index always addresses a player
  | some currentPlayer =>
    if gs.waitingForUno ∧ handLen currentPlayer = 1 ∧ ¬currentPlayer.hasUno then
      -- UNO penalty: draw 2 cards, reset hasUno, clear waitingForUno
      let gs := drawOne shuf (drawOne shuf gs gs.currentPlayerIndex) gs.currentPlayerIndex
      let gs :=
        match gs.players.get? gs.currentPlayerIndex with
        | none => gs
        | some p =>
            { gs with players := gs.players.set gs.currentPlayerIndex { p with hasUno := false } }
      { gs with waitingForUno := false }
    else if gs.hasDrawnPlayableCard then
      -- drew a playable card but never decided: no extra penalty
      { gs with hasDrawnPlayableCard := false }
    else
      -- normal timeout: draw 1 card as punishment
      let gs := drawOne shuf gs gs.currentPlayerIndex
      let gs :=
        match gs.players.get? gs.currentPlayerIndex with
        | none => gs
        | some p =>
          if handLen p > 1 then
            { gs with players := gs.players.set gs.currentPlayerIndex { p with hasUno := false } }
          else gs
      { gs with waitingForUno := false }

/-- `handleTurnTimeout()`: race-guarded penalty application followed by the
advance over disconnected seats. -/
def handleTurnTimeout (shuf : List Card → List Card) (now : Nat) (g : Game) : Game :=
  if g.gameState.status ≠ .playing then g
  else if g.turnExpiresAt = none then g  -- timer already cleared: ignore
  else
    let orig := g.gameState.currentPlayerIndex
    let gs := timeoutPenalty shuf g.gameState
    let gs := { gs with hasDrawnPlayableCard := false }
    let gs := nextTurn gs
    match skipLoop gs.players gs.direction orig gs.currentPlayerIndex gs.players.length with
    | .pause i => clearTurnTimer { g with gameState := { gs with currentPlayerIndex := i } }
    | .found i => startTurnTimer now { g with gameState := { gs with currentPlayerIndex := i } }

/-- The `{success, message}` result of the public methods (the extra
payload fields — `card`, `canPlayImmediately`, `gameState` — are derived
data and are omitted). -/
structure MoveResult where
  success : Bool
  message : String
deriving DecidableEq, Repr

/-- The special-card-effect tail of `playCard` (from "Handle special card
effects" to the end), split out to keep terms small.  `gs1` is the state
with the card already moved to the discard pile. -/
def playCardSpecial (shuf : List Card → List Card) (now : Nat) (card : Card)
    (g : Game) (gs1 : GameState) : MoveResult × Game :=
  let gs2 :=
    if card.value = .reverse then { gs1 with direction := gs1.direction * -1 } else gs1
  let skipTurn :=
    card.value = .draw4 ∨ card.value = .skip ∨ card.value = .draw2 ∨
      (card.value = .reverse ∧ gs2.players.length = 2)
  let drawAmount : Nat :=
    if card.value = .draw4 then 4 else if card.value = .draw2 then 2 else 0
  let gs3 := { gs2 with hasDrawnPlayableCard := false }
  if ¬ skipTurn then
    (⟨true, "Card played"⟩, startTurnTimer now { g with gameState := nextTurn gs3 })
  else
    let gs4 := nextTurn gs3
    let gs5 :=
      if drawAmount > 0 then
        (List.range drawAmount).foldl (fun s _ => drawOne shuf s s.currentPlayerIndex) gs4
      else gs4
    let gs6 := nextTurn gs5
    (⟨true, "Card played"⟩, startTurnTimer now { g with gameState := gs6 })

/-- The effect part of `playCard` (from "Remove card from player's hand" to
the end), reached once every validation has passed. -/
def playCardResolve (shuf : List Card → List Card) (now : Nat)
    (chosenColor : Option Color) (playerIndex cardIndexN : Nat) (card : Card)
    (player : Player) (g : Game) : MoveResult × Game :=
  let gs := g.gameState
  let player1 := { player with hand := player.hand.eraseIdx cardIndexN }
  let newColor :=
    if card.color = .wild then
      match chosenColor with
      | some c => if c = .red ∨ c = .green ∨ c = .blue ∨ c = .yellow then c else .red
      | none => .red
    else card.color
  let gs1 := { gs with
    players := gs.players.set playerIndex player1
    hasPlayedCardThisTurn := true
    discardPile := card :: gs.discardPile
    topCard := some card
    currentColor := some newColor }
  if handLen player1 = 0 then
    -- win check: before any declaration or special-effect logic
    (⟨true, "Player wins!"⟩,
     clearTurnTimer { g with gameState :=
       { gs1 with status := .finished, winner := some playerIndex } })
  else
    let isActionCardGivingAnotherTurn :=
      gs1.players.length = 2 ∧
        (card.value = .skip ∨ card.value = .reverse ∨
         card.value = .draw2 ∨ card.value = .draw4)
    if handLen player1 = 1 ∧ ¬player1.hasUno ∧
        ¬isActionCardGivingAnotherTurn ∧ gs1.hasPlayedCardThisTurn then
      -- must call UNO before anything else; the running timer is kept
      (⟨true, "Card played - call UNO!"⟩,
       { g with gameState :=
         { gs1 with waitingForUno := true, hasDrawnPlayableCard := false } })
    else
      playCardSpecial shuf now card g gs1

/-- `playCard(playerId, cardIndex, chosenColor)`. -/
def playCard (shuf : List Card → List Card) (now : Nat) (playerId : String)
    (cardIndex : Int) (chosenColor : Option Color) (g : Game) : MoveResult × Game :=
  let gs := g.gameState
  if gs.status ≠ .playing then (⟨false, "Game is not in playing state"⟩, g)
  else
    match gs.players.findIdx? (fun p => p.id == playerId) with
    | none => (⟨false, "Player not found"⟩, g)
    | some playerIndex =>
      if playerIndex ≠ gs.currentPlayerIndex then (⟨false, "Not your turn"⟩, g)
      else if gs.waitingForUno then (⟨false, "You must call UNO first"⟩, g)
      else
        match gs.players.get? playerIndex with
        | none => (⟨false, "Player not found"⟩, g)  -- unreachable: findIdx? succeeded
        | some player =>
          if handLen player = 1 ∧ ¬player.hasUno ∧ gs.hasPlayedCardThisTurn then
            (⟨false, "You must call UNO before playing another card"⟩, g)
          else if cardIndex < 0 ∨ (handLen player : Int) ≤ cardIndex then
            (⟨false, "Invalid card index"⟩, g)
          else
            match player.hand.get? cardIndex.toNat with
            | none => (⟨false, "Cannot play this card"⟩, g)
              -- only for a junk-corrupted hand, where the original throws
            | some card =>
              match gs.topCard with
              | none => (⟨false, "Cannot play this card"⟩, g)  -- unreachable while playing
              | some topCard =>
                if ¬ canPlayCard card topCard gs.currentColor player.hand then
                  if card.color = .wild ∧ card.value = .draw4 then
                    (⟨false, "Cannot play Wild Draw 4: You have a card matching the current color"⟩, g)
                  else (⟨false, "Cannot play this card"⟩, g)
                else
                  playCardResolve shuf now chosenColor playerIndex cardIndex.toNat
                    card player g

/-- `drawCard(playerId)`. -/
def drawCard (shuf : List Card → List Card) (now : Nat) (playerId : String)
    (g : Game) : MoveResult × Game :=
  let gs := g.gameState
  if gs.status ≠ .playing then (⟨false, "Game is not in playing state"⟩, g)
  else
    match gs.players.findIdx? (fun p => p.id == playerId) with
    | none => (⟨false, "Player not found"⟩, g)
    | some playerIndex =>
      if playerIndex ≠ gs.currentPlayerIndex then (⟨false, "Not your turn"⟩, g)
      else if gs.waitingForUno then (⟨false, "You must call UNO first"⟩, g)
      else
        match gs.players.get? playerIndex with
        | none => (⟨false, "Player not found"⟩, g)  -- unreachable: findIdx? succeeded
        | some player =>
          -- the remaining time is saved, then the timer is cleared *before*
          -- the two remaining rejection checks
          let remainingTime :=
            match g.turnExpiresAt with
            | some t => t - now  -- Math.max(0, expiresAt - now): Nat subtraction truncates
            | none => turnTimeLimit
          let g1 := clearTurnTimer g
          if gs.hasDrawnPlayableCard then
            (⟨false, "You must play the drawn card or end your turn"⟩, g1)
          else
            match gs.topCard with
            | none =>  -- unreachable while playing (the original would throw)
              (⟨false, "You have a playable card. You must play a card before drawing."⟩, g1)
            | some topCard =>
              if hasPlayableCard player.hand topCard gs.currentColor then
                (⟨false, "You have a playable card. You must play a card before drawing."⟩, g1)
              else
                let gsr := if gs.deck.length = 0 then reshuffleDeck shuf gs else gs
                match gsr.deck with
                | [] =>
                  -- deck exhausted even after the reshuffle attempt: the JS pop
                  -- yields `undefined`; a junk entry is recorded (the original
                  -- would then throw inside `canPlayCard`); treated as unplayable
                  let player2 := { player with junk := player.junk + 1 }
                  let gs2 := { gsr with players := gsr.players.set playerIndex player2 }
                  let gs3 :=
                    if handLen player2 > 1 then
                      { gs2 with players := gs2.players.set playerIndex { player2 with hasUno := false } }
                    else gs2
                  (⟨true, "Card drawn - not playable, turn ends"⟩,
                   startTurnTimer now { g1 with gameState := nextTurn gs3 })
                | drawnCard :: rest =>
                  let player2 := { player with hand := player.hand ++ [drawnCard] }
                  let gs2 := { gsr with deck := rest, players := gsr.players.set playerIndex player2 }
                  let gs3 :=
                    if handLen player2 > 1 then
                      { gs2 with players := gs2.players.set playerIndex { player2 with hasUno := false } }
                    else gs2
                  if canPlayCard drawnCard topCard gs3.currentColor player2.hand then
                    (⟨true, "Card drawn - you can play it or end your turn"⟩,
                     startTurnTimerWithDuration now remainingTime
                       { g1 with gameState := { gs3 with hasDrawnPlayableCard := true } })
                  else
                    (⟨true, "Card drawn - not playable, turn ends"⟩,
                     startTurnTimer now { g1 with gameState := nextTurn gs3 })

/-- `endTurn(playerId)`. -/
def endTurn (now : Nat) (playerId : String) (g : Game) : MoveResult × Game :=
  let gs := g.gameState
  if gs.status ≠ .playing then (⟨false, "Game is not in playing state"⟩, g)
  else
    match gs.players.findIdx? (fun p => p.id == playerId) with
    | none => (⟨false, "Player not found"⟩, g)
    | some playerIndex =>
      if playerIndex ≠ gs.currentPlayerIndex then (⟨false, "Not your turn"⟩, g)
      else if ¬ gs.hasDrawnPlayableCard then
        (⟨false, "You can only end your turn after drawing a playable card"⟩, g)
      else
        (⟨true, "Turn ended"⟩,
         startTurnTimer now
           { g with gameState := nextTurn { gs with hasDrawnPlayableCard := false } })

/-- `callUno(playerId)`: the declaration call. -/
def callUno (now : Nat) (playerId : String) (g : Game) : MoveResult × Game :=
  let gs := g.gameState
  if gs.status ≠ .playing then (⟨false, "Game is not in playing state"⟩, g)
  else
    match gs.players.findIdx? (fun p => p.id == playerId) with
    | none => (⟨false, "Player not found"⟩, g)
    | some playerIndex =>
      if playerIndex ≠ gs.currentPlayerIndex then (⟨false, "Not your turn"⟩, g)
      else
        match gs.players.get? playerIndex with
        | none => (⟨false, "Cannot call UNO"⟩, g)  -- unreachable: findIdx? succeeded
        | some player =>
          if handLen player = 1 ∧ ¬player.hasUno then
            let gs1 := { gs with
              players := gs.players.set playerIndex { player with hasUno := true }
              hasDrawnPlayableCard := false }
            (⟨true, "UNO called"⟩, startTurnTimer now { g with gameState := nextTurn gs1 })
          else (⟨false, "Cannot call UNO"⟩, g)

/-- One entry of the snapshot `getPublicState` returns per seat. -/
structure PublicPlayer where
  id : String
  name : String
  hand : List Card
  handSize : Nat
  hasUno : Bool
deriving DecidableEq, Repr

/-- The snapshot `getPublicState` returns.  The computed-but-never-included
`turnTimeRemaining` local of the original is dead code and has no field. -/
structure PublicState where
  waitingForUno : Bool
  players : List PublicPlayer
  deckCount : Nat
  discardPile : List Card
  topCard : Option Card
  currentPlayerIndex : Nat
  direction : Int
  status : Status
  winner : Option Nat
  currentColor : Option Color
  hasDrawnPlayableCard : Bool
deriving DecidableEq, Repr

/-- The per-seat entry of `getPublicState`.  The redaction condition is the
JS truthiness test `playerId && player.id !== playerId`: a `null` (omitted)
or empty-string caller id redacts nothing. -/
def publicPlayerOf (playerId : Option String) (player : Player) : PublicPlayer :=
  match playerId with
  | some q =>
    if q ≠ "" ∧ player.id ≠ q then
      { id := player.id, name := player.name, hand := [],
        handSize := handLen player, hasUno := player.hasUno }
    else
      { id := player.id, name := player.name, hand := player.hand,
        handSize := handLen player, hasUno := player.hasUno }
  | none =>
      { id := player.id, name := player.name, hand := player.hand,
        handSize := handLen player, hasUno := player.hasUno }

/-- `getPublicState(playerId)`. -/
def getPublicState (playerId : Option String) (g : Game) : PublicState :=
  let gs := g.gameState
  { waitingForUno := gs.waitingForUno
    players := gs.players.map (publicPlayerOf playerId)
    deckCount := gs.deck.length
    discardPile := gs.discardPile
    topCard := gs.topCard
    currentPlayerIndex := gs.currentPlayerIndex
    direction := gs.direction
    status := gs.status
    winner := gs.winner
    currentColor := gs.currentColor
    hasDrawnPlayableCard := gs.hasDrawnPlayableCard }

/-- JS `String.prototype.replace` with a string pattern: remove the first
occurrence of `sep`. -/
def jsReplaceFirst (s sep : String) : String :=
  match s.splitOn sep with
  | [] => s
  | [x] => x
  | x :: y :: rest => x ++ String.intercalate sep (y :: rest)

/-- `handlePlayerDisconnect(playerId)` (the informational payload fields of
the result are omitted). -/
def handlePlayerDisconnect (playerId : String) (g : Game) : MoveResult × Game :=
  match g.gameState.players.findIdx? (fun p => p.id == playerId) with
  | none => (⟨false, "Player not found in game"⟩, g)
  | some playerIndex =>
    if g.gameState.status = .finished then (⟨true, ""⟩, g)
    else
      match g.gameState.players.get? playerIndex with
      | none => (⟨true, ""⟩, g)  -- unreachable: findIdx? succeeded
      | some p =>
        let originalName := jsReplaceFirst p.name " (Disconnected)"
        let p1 := { p with
          originalName := some originalName
          disconnected := true
          name := originalName ++ " (Disconnected)" }
        (⟨true, ""⟩,
         { g with gameState :=
           { g.gameState with players := g.gameState.players.set playerIndex p1 } })

/-- `handlePlayerReconnect(oldPlayerId, newPlayerId, playerName)`. -/
def handlePlayerReconnect (now : Nat) (oldPlayerId newPlayerId playerName : String)
    (g : Game) : MoveResult × Game :=
  match g.gameState.players.findIdx? (fun p =>
      p.id == oldPlayerId ||
      (p.originalName.getD (jsReplaceFirst p.name " (Disconnected)")) == playerName) with
  | none => (⟨false, "Player not found in game"⟩, g)
  | some playerIndex =>
    match g.gameState.players.get? playerIndex with
    | none => (⟨false, "Player not found in game"⟩, g)  -- unreachable
    | some player =>
      let p1 := { player with
        id := newPlayerId
        socketId := newPlayerId
        name := player.originalName.getD playerName
        originalName := none
        disconnected := false }
      let g1 := { g with gameState :=
        { g.gameState with players := g.gameState.players.set playerIndex p1 } }
      if (g1.gameState.players.filter (fun p => ¬ p.disconnected)).length > 0 ∧
          g1.gameState.status = .playing ∧ g1.turnExpiresAt = none then
        (⟨true, ""⟩, startTurnTimer now g1)
      else (⟨true, ""⟩, g1)

/-- The card-count of a state: `|deck| + |discardPile| + Σ |hand_i|`, where
`|hand_i|` is the JS array length (real cards plus junk entries). -/
def totalCount (gs : GameState) : Nat :=
  gs.deck.length + gs.discardPile.length + (gs.players.map handLen).sum

/-! ### Spec-side definitions (taken from the claims, not from the code) -/

/-- The seat reached from `orig` after `k` steps in direction `d` around a
table of `n` seats — the claims' "direction order". -/
def seatAfter (n : Nat) (d : Int) (orig k : Nat) : Nat :=
  (orig + k * (if d = 1 then 1 else n - 1)) % n

/-! ### Concrete states used by witnesses and counterexamples -/

/-- A fresh connected player with the given hand, for building test states. -/
def mkPlayer (i : String) (h : List Card) : Player :=
  { id := i, socketId := i, hand := h, junk := 0, name := i, wallet := none,
    hasUno := false, disconnected := false, originalName := none }

/-- A small mid-game state builder: two to four seats, playing, armed timer. -/
def mkGame (ps : List Player) (deck discard : List Card) (top : Card)
    (cc : Color) (cpi : Nat) : Game :=
  { gameState :=
      { players := ps
        deck := deck
        discardPile := discard
        topCard := some top
        currentPlayerIndex := cpi
        direction := 1
        status := .playing
        winner := none
        currentColor := some cc
        hasDrawnPlayableCard := false
        hasPlayedCardThisTurn := false
        waitingForUno := false }
    turnStartTime := some 0
    turnExpiresAt := some turnTimeLimit }

/-! ### General helper lemmas -/

theorem get?_set_self {α : Type} (l : List α) (i : Nat) (a : α) (h : i < l.length) :
    (l.set i a).get? i = some a := by
  rw [List.get?_eq_getElem?, List.getElem?_set_self h]

theorem get?_set_ne {α : Type} (l : List α) {i j : Nat} (h : i ≠ j) (a : α) :
    (l.set i a).get? j = l.get? j := by
  rw [List.get?_eq_getElem?, List.get?_eq_getElem?, List.getElem?_set_ne h]

theorem get?_map_opt {α β : Type} (f : α → β) (l : List α) (i : Nat) :
    (l.map f).get? i = (l.get? i).map f := by
  rw [List.get?_eq_getElem?, List.get?_eq_getElem?, List.getElem?_map]

/-! ### Claim C2 -/

/-- Claim C2: `canPlayCard(card, topCard, currentColor, hand)` returns true
exactly per the rule set: a wild-draw-four is accepted iff the hand has no
non-wild card whose color equals `currentColor`; a plain wild is always
accepted; a colored card is accepted iff its color equals `currentColor` or
its value equals `topCard.value`; nothing else is accepted.  Moreover a
colored deck card never value-matches a wild deck topCard. -/
theorem canPlayCard_spec :
    (∀ (card topCard : Card) (cc : Color) (hand : List Card),
        canPlayCard card topCard (some cc) hand = true ↔
          ((card.color = .wild ∧ card.value = .draw4 ∧
              ¬ ∃ c ∈ hand, c.color = cc ∧ c.color ≠ .wild) ∨
           (card.color = .wild ∧ card.value ≠ .draw4) ∨
           (card.color ≠ .wild ∧ (card.color = cc ∨ card.value = topCard.value)))) ∧
    (∀ (card topCard : Card), card ∈ createDeck → topCard ∈ createDeck →
        card.color ≠ .wild → topCard.color = .wild → card.value ≠ topCard.value) := by
  constructor
  · intro card topCard cc hand
    unfold canPlayCard
    by_cases hw : card.color = .wild
    · by_cases hv : card.value = .draw4
      · by_cases hlen : hand = []
        · subst hlen; simp [hw, hv]
        · have hpos : hand.length > 0 := List.length_pos.mpr hlen
          simp [hw, hv, hpos, List.any_eq_true]
      · simp [hw, hv]
    · simp only [hw, false_and, if_false, Option.some.injEq]
      by_cases hc : card.color = cc
      · have hw' : ¬ cc = Color.wild := hc ▸ hw
        simp [hc, hw, hw']
      · by_cases hvv : card.value = topCard.value
        · simp [hc, hw, hvv]
        · simp [hc, hw, hvv]
  · intro card topCard hcd htd hcw htw
    have h1 : card.value ≠ Value.wild ∧ card.value ≠ Value.draw4 := by
      have h := List.all_eq_true.mp
        (show createDeck.all
            (fun c => c.color = Color.wild ∨ (c.value ≠ Value.wild ∧ c.value ≠ Value.draw4))
            = true by decide) card hcd
      simp only [decide_eq_true_eq] at h
      tauto
    have h2 : topCard.value = Value.wild ∨ topCard.value = Value.draw4 := by
      have h := List.all_eq_true.mp
        (show createDeck.all
            (fun c => c.color ≠ Color.wild ∨ c.value = Value.wild ∨ c.value = Value.draw4)
            = true by decide) topCard htd
      simp only [decide_eq_true_eq] at h
      tauto
    rcases h2 with h2 | h2 <;> rw [h2]
    · exact h1.1
    · exact h1.2

/-- Witness for C2: all hypotheses hold at `red 5` against a wild-draw-four
topCard, and the parenthetical conclusion follows from the theorem. -/
theorem canPlayCard_spec_witness :
    (Card.mk .red (.num 5)) ∈ createDeck ∧ (Card.mk .wild .draw4) ∈ createDeck ∧
    (Card.mk .red (.num 5)).color ≠ .wild ∧ (Card.mk .wild .draw4).color = .wild ∧
    (Card.mk .red (.num 5)).value ≠ (Card.mk .wild .draw4).value :=
  ⟨by decide, by decide, by decide, by decide,
   canPlayCard_spec.2 _ _ (by decide) (by decide) (by decide) (by decide)⟩

/-! ### Claim C10 -/

/-- Claim C10: every `nextTurn` transition (the turn advance used by
`playCard`, `drawCard`, `endTurn`, `callUno` and `handleTurnTimeout`)
resets `hasDrawnPlayableCard`, `hasPlayedCardThisTurn` and `waitingForUno`
to false and clears every player's `hasUno` flag, so a declaration never
carries over into a later turn. -/
theorem nextTurn_resets (gs : GameState) :
    (nextTurn gs).hasDrawnPlayableCard = false ∧
    (nextTurn gs).hasPlayedCardThisTurn = false ∧
    (nextTurn gs).waitingForUno = false ∧
    (nextTurn gs).players.all (fun p => p.hasUno = false) = true := by
  refine ⟨rfl, rfl, rfl, ?_⟩
  simp [nextTurn, List.all_eq_true]

/-! ### Claim C6 -/

/-- Claim C6: while playing, a `drawCard` by the active seat (not in the
drawn-and-deciding or waiting-for-declaration sub-states) is rejected with
`success: false` whenever `hasPlayableCard` holds for the caller's hand,
and such a rejected draw modifies neither the caller's hand (any player)
nor the deck. -/
theorem drawCard_rejected_when_playable
    (shuf : List Card → List Card) (now : Nat) (pid : String) (g : Game)
    (i : Nat) (p : Player) (t : Card)
    (hstatus : g.gameState.status = .playing)
    (hfind : g.gameState.players.findIdx? (fun q => q.id == pid) = some i)
    (hcur : i = g.gameState.currentPlayerIndex)
    (hwait : g.gameState.waitingForUno = false)
    (hdrawn : g.gameState.hasDrawnPlayableCard = false)
    (hget : g.gameState.players.get? i = some p)
    (htop : g.gameState.topCard = some t)
    (hplayable : hasPlayableCard p.hand t g.gameState.currentColor = true) :
    (drawCard shuf now pid g).1.success = false ∧
    (drawCard shuf now pid g).2.gameState.players = g.gameState.players ∧
    (drawCard shuf now pid g).2.gameState.deck = g.gameState.deck := by
  rw [hcur] at hget
  simp only [drawCard, hstatus, hfind, hcur, hwait, hdrawn, hget, htop, hplayable,
    clearTurnTimer]
  simp

/-- Witness for C6: a concrete rejected draw with a playable red 5 in hand. -/
theorem drawCard_rejected_when_playable_witness :
    (drawCard id 0 "a"
        (mkGame [mkPlayer "a" [⟨.red, .num 5⟩], mkPlayer "b" [⟨.blue, .num 1⟩]]
          [⟨.green, .num 3⟩] [⟨.red, .num 7⟩] ⟨.red, .num 7⟩ .red 0)).1.success = false ∧
    (drawCard id 0 "a"
        (mkGame [mkPlayer "a" [⟨.red, .num 5⟩], mkPlayer "b" [⟨.blue, .num 1⟩]]
          [⟨.green, .num 3⟩] [⟨.red, .num 7⟩] ⟨.red, .num 7⟩ .red 0)).2.gameState.players =
      (mkGame [mkPlayer "a" [⟨.red, .num 5⟩], mkPlayer "b" [⟨.blue, .num 1⟩]]
          [⟨.green, .num 3⟩] [⟨.red, .num 7⟩] ⟨.red, .num 7⟩ .red 0).gameState.players ∧
    (drawCard id 0 "a"
        (mkGame [mkPlayer "a" [⟨.red, .num 5⟩], mkPlayer "b" [⟨.blue, .num 1⟩]]
          [⟨.green, .num 3⟩] [⟨.red, .num 7⟩] ⟨.red, .num 7⟩ .red 0)).2.gameState.deck =
      (mkGame [mkPlayer "a" [⟨.red, .num 5⟩], mkPlayer "b" [⟨.blue, .num 1⟩]]
          [⟨.green, .num 3⟩] [⟨.red, .num 7⟩] ⟨.red, .num 7⟩ .red 0).gameState.deck :=
  drawCard_rejected_when_playable id 0 "a" _ 0 (mkPlayer "a" [⟨.red, .num 5⟩])
    ⟨.red, .num 7⟩ (by decide) (by decide) (by decide) (by decide) (by decide)
    (by decide) (by decide) (by decide)

/-! ### Claim C5 -/

/-- Claim C5: a `playCard` call that removes the active player's last card
immediately finishes the game: `status` becomes `finished`, `winner` is set
to that seat and the turn timer is cancelled, before any declaration or
special-effect logic runs — in particular a player who never declared
(`hasUno = false`, possible when no card was played yet this turn) still
wins by emptying their hand. -/
theorem playCard_win_on_empty_hand
    (shuf : List Card → List Card) (now : Nat) (pid : String) (idx : Int)
    (ccol : Option Color) (g : Game) (i : Nat) (p : Player) (c t : Card)
    (hstatus : g.gameState.status = .playing)
    (hfind : g.gameState.players.findIdx? (fun q => q.id == pid) = some i)
    (hcur : i = g.gameState.currentPlayerIndex)
    (hwait : g.gameState.waitingForUno = false)
    (hget : g.gameState.players.get? i = some p)
    (hhand : p.hand = [c]) (hjunk : p.junk = 0)
    (hnb : p.hasUno = true ∨ g.gameState.hasPlayedCardThisTurn = false)
    (hidx0 : 0 ≤ idx) (hidx1 : idx < 1)
    (htop : g.gameState.topCard = some t)
    (hplay : canPlayCard c t g.gameState.currentColor p.hand = true) :
    (playCard shuf now pid idx ccol g).1.success = true ∧
    (playCard shuf now pid idx ccol g).1.message = "Player wins!" ∧
    (playCard shuf now pid idx ccol g).2.gameState.status = .finished ∧
    (playCard shuf now pid idx ccol g).2.gameState.winner = some i ∧
    (playCard shuf now pid idx ccol g).2.turnExpiresAt = none := by
  have hidx : idx = 0 := by omega
  subst hidx
  rw [hcur] at hget
  have hlen : handLen p = 1 := by simp [handLen, hhand, hjunk]
  have hblock : ¬ (handLen p = 1 ∧ ¬p.hasUno = true ∧
      g.gameState.hasPlayedCardThisTurn = true) := by
    rcases hnb with h | h <;> simp [h]
  have hidxok : ¬ ((0 : Int) < 0 ∨ (handLen p : Int) ≤ 0) := by
    rw [hlen]; omega
  have hgets : p.hand.get? (Int.toNat 0) = some c := by simp [hhand]
  have herase : p.hand.eraseIdx (Int.toNat 0) = [] := by simp [hhand]
  simp only [playCard, playCardResolve, hstatus, hfind, hcur, hwait, hget, htop,
    hplay, hgets, herase, clearTurnTimer]
  rw [if_neg hblock, if_neg hidxok]
  simp [hplay, handLen, hjunk, herase]

/-- Witness for C5: seat 0 plays its single red 5 and wins undeclared. -/
theorem playCard_win_on_empty_hand_witness :
    (playCard id 0 "a" 0 none
        (mkGame [mkPlayer "a" [⟨.red, .num 5⟩], mkPlayer "b" [⟨.blue, .num 1⟩]]
          [⟨.green, .num 3⟩] [⟨.red, .num 7⟩] ⟨.red, .num 7⟩ .red 0)).1.success = true ∧
    (playCard id 0 "a" 0 none
        (mkGame [mkPlayer "a" [⟨.red, .num 5⟩], mkPlayer "b" [⟨.blue, .num 1⟩]]
          [⟨.green, .num 3⟩] [⟨.red, .num 7⟩] ⟨.red, .num 7⟩ .red 0)).1.message = "Player wins!" ∧
    (playCard id 0 "a" 0 none
        (mkGame [mkPlayer "a" [⟨.red, .num 5⟩], mkPlayer "b" [⟨.blue, .num 1⟩]]
          [⟨.green, .num 3⟩] [⟨.red, .num 7⟩] ⟨.red, .num 7⟩ .red 0)).2.gameState.status = .finished ∧
    (playCard id 0 "a" 0 none
        (mkGame [mkPlayer "a" [⟨.red, .num 5⟩], mkPlayer "b" [⟨.blue, .num 1⟩]]
          [⟨.green, .num 3⟩] [⟨.red, .num 7⟩] ⟨.red, .num 7⟩ .red 0)).2.gameState.winner = some 0 ∧
    (playCard id 0 "a" 0 none
        (mkGame [mkPlayer "a" [⟨.red, .num 5⟩], mkPlayer "b" [⟨.blue, .num 1⟩]]
          [⟨.green, .num 3⟩] [⟨.red, .num 7⟩] ⟨.red, .num 7⟩ .red 0)).2.turnExpiresAt = none :=
  playCard_win_on_empty_hand id 0 "a" 0 none _ 0 (mkPlayer "a" [⟨.red, .num 5⟩])
    ⟨.red, .num 5⟩ ⟨.red, .num 7⟩ (by decide) (by decide) (by decide) (by decide)
    (by decide) (by decide) (by decide) (by decide) (by decide) (by decide)
    (by decide) (by decide)

/-! ### Claim C9 -/

/-- With two seats and `d = ±1`, stepping twice returns to the same seat. -/
theorem stepIdx_two_cycle (d : Int) (hd : d = 1 ∨ d = -1) (j : Nat) (hj : j < 2) :
    stepIdx 2 d (stepIdx 2 d j) = j := by
  rcases hd with rfl | rfl <;> interval_cases j <;> decide

/-- Claim C9: in a two-seat game, a successful `playCard` of a reverse leaves
`currentPlayerIndex` on the same seat as a `playCard` of a skip would: in
both cases the active seat keeps the turn (the theorem covers both card
values through the `hval` disjunction, giving the identical
seat-continuation). -/
theorem playCard_skip_reverse_two_players
    (shuf : List Card → List Card) (now : Nat) (pid : String) (idx : Int)
    (ccol : Option Color) (g : Game) (i : Nat) (p : Player) (c t : Card)
    (hp2 : g.gameState.players.length = 2)
    (hd : g.gameState.direction = 1 ∨ g.gameState.direction = -1)
    (hstatus : g.gameState.status = .playing)
    (hfind : g.gameState.players.findIdx? (fun q => q.id == pid) = some i)
    (hcur : i = g.gameState.currentPlayerIndex)
    (hwait : g.gameState.waitingForUno = false)
    (hget : g.gameState.players.get? i = some p)
    (hjunk : p.junk = 0) (hlen2 : 2 ≤ p.hand.length)
    (hidx : ¬ (idx < 0 ∨ (handLen p : Int) ≤ idx))
    (hgetc : p.hand.get? idx.toNat = some c)
    (hval : c.value = Value.skip ∨ c.value = Value.reverse)
    (htop : g.gameState.topCard = some t)
    (hplay : canPlayCard c t g.gameState.currentColor p.hand = true) :
    (playCard shuf now pid idx ccol g).1.success = true ∧
    (playCard shuf now pid idx ccol g).2.gameState.currentPlayerIndex =
      g.gameState.currentPlayerIndex := by
  rw [hcur] at hget
  have hcpi2 : g.gameState.currentPlayerIndex < 2 := by
    rw [List.get?_eq_getElem?] at hget
    obtain ⟨h, -⟩ := List.getElem?_eq_some.mp hget
    omega
  have htn : idx.toNat < p.hand.length := by
    rw [List.get?_eq_getElem?] at hgetc
    obtain ⟨h, -⟩ := List.getElem?_eq_some.mp hgetc
    exact h
  have hne1 : ¬ (p.hand.length = 1) := by omega
  have hidx2 : ¬ (idx < 0 ∨ ((p.hand.length : Nat) : Int) ≤ idx) := by
    simpa [handLen, hjunk] using hidx
  have hwin : ¬ (p.hand.length - 1 = 0) := by omega
  have hcyc := stepIdx_two_cycle g.gameState.direction hd
      g.gameState.currentPlayerIndex hcpi2
  have hd' : -g.gameState.direction = 1 ∨ -g.gameState.direction = -1 := by
    rcases hd with h | h <;> simp [h]
  have hcyc2 := stepIdx_two_cycle (-g.gameState.direction) hd'
      g.gameState.currentPlayerIndex hcpi2
  have hcpi2n : ¬ (2 ≤ g.gameState.currentPlayerIndex) := by omega
  rw [List.get?_eq_getElem?] at hget hgetc
  rcases hval with hval | hval <;>
    simp [playCard, playCardResolve, playCardSpecial, hstatus, hfind, hcur, hwait,
      hget, hgetc, htop, hplay, hval,
      clearTurnTimer, handLen, hjunk, List.length_eraseIdx, List.length_set,
      List.length_map, hp2, htn, hne1, hidx2, hwin, nextTurn, startTurnTimer,
      hcpi2n, hcyc, hcyc2]

/-- Witness for C9: seat 0 of a two-seat game plays a red skip and keeps the
turn. -/
theorem playCard_skip_reverse_two_players_witness :
    (playCard id 0 "a" 0 none
        (mkGame [mkPlayer "a" [⟨.red, .skip⟩, ⟨.red, .num 1⟩], mkPlayer "b" [⟨.blue, .num 1⟩]]
          [⟨.green, .num 3⟩] [⟨.red, .num 7⟩] ⟨.red, .num 7⟩ .red 0)).1.success = true ∧
    (playCard id 0 "a" 0 none
        (mkGame [mkPlayer "a" [⟨.red, .skip⟩, ⟨.red, .num 1⟩], mkPlayer "b" [⟨.blue, .num 1⟩]]
          [⟨.green, .num 3⟩] [⟨.red, .num 7⟩] ⟨.red, .num 7⟩ .red 0)).2.gameState.currentPlayerIndex =
      (mkGame [mkPlayer "a" [⟨.red, .skip⟩, ⟨.red, .num 1⟩], mkPlayer "b" [⟨.blue, .num 1⟩]]
          [⟨.green, .num 3⟩] [⟨.red, .num 7⟩] ⟨.red, .num 7⟩ .red 0).gameState.currentPlayerIndex :=
  playCard_skip_reverse_two_players id 0 "a" 0 none _ 0
    (mkPlayer "a" [⟨.red, .skip⟩, ⟨.red, .num 1⟩]) ⟨.red, .skip⟩ ⟨.red, .num 7⟩
    (by decide) (by decide) (by decide) (by decide) (by decide) (by decide)
    (by decide) (by decide) (by decide) (by decide) (by decide) (by decide)
    (by decide) (by decide)

/-! ### Claim C8 -/

theorem set_of_get?_eq {α : Type} :
    ∀ (l : List α) (j : Nat) (x : α), l.get? j = some x → l.set j x = l
  | [], _, _, h => by simp at h
  | a :: l, 0, x, h => by
      simp only [List.get?] at h
      cases h
      rfl
  | a :: l, j + 1, x, h => by
      simp only [List.get?] at h
      simp [List.set, set_of_get?_eq l j x h]

/-- Claim C8, amended: when a non-empty `seatId` is supplied, the snapshot
redacts every other seat's hand to its count: two states that differ only in
the card contents (not the size) of another seat's hand yield identical
snapshots. -/
theorem getPublicState_redacts_with_caller
    (g : Game) (j : Nat) (p : Player) (h' : List Card) (q : String)
    (hq : q ≠ "")
    (hget : g.gameState.players.get? j = some p)
    (hid : p.id ≠ q)
    (hlen : h'.length = p.hand.length) :
    getPublicState (some q)
        { g with gameState :=
            { g.gameState with
                players := g.gameState.players.set j { p with hand := h' } } } =
      getPublicState (some q) g := by
  have hf : publicPlayerOf (some q) { p with hand := h' } = publicPlayerOf (some q) p := by
    simp [publicPlayerOf, hq, hid, handLen, hlen]
  have hmem : (g.gameState.players.map (publicPlayerOf (some q))).get? j =
      some (publicPlayerOf (some q) p) := by
    rw [List.get?_eq_getElem?, List.getElem?_map, ← List.get?_eq_getElem?, hget]
    rfl
  unfold getPublicState
  simp only [List.map_set, hf,
    set_of_get?_eq (g.gameState.players.map (publicPlayerOf (some q))) j
      (publicPlayerOf (some q) p) hmem]

/-- Witness for C8 (amended): changing the single blue card in seat `b`'s
hand is invisible to caller `a`. -/
theorem getPublicState_redacts_with_caller_witness :
    getPublicState (some "a")
        { (mkGame [mkPlayer "a" [⟨.red, .num 5⟩], mkPlayer "b" [⟨.blue, .num 1⟩]]
            [⟨.green, .num 3⟩] [⟨.red, .num 7⟩] ⟨.red, .num 7⟩ .red 0) with gameState :=
            { (mkGame [mkPlayer "a" [⟨.red, .num 5⟩], mkPlayer "b" [⟨.blue, .num 1⟩]]
                [⟨.green, .num 3⟩] [⟨.red, .num 7⟩] ⟨.red, .num 7⟩ .red 0).gameState with
                players := (mkGame [mkPlayer "a" [⟨.red, .num 5⟩], mkPlayer "b" [⟨.blue, .num 1⟩]]
                    [⟨.green, .num 3⟩] [⟨.red, .num 7⟩] ⟨.red, .num 7⟩ .red 0).gameState.players.set 1
                  { (mkPlayer "b" [⟨.blue, .num 1⟩]) with hand := [⟨.blue, .num 9⟩] } } } =
      getPublicState (some "a")
        (mkGame [mkPlayer "a" [⟨.red, .num 5⟩], mkPlayer "b" [⟨.blue, .num 1⟩]]
          [⟨.green, .num 3⟩] [⟨.red, .num 7⟩] ⟨.red, .num 7⟩ .red 0) :=
  getPublicState_redacts_with_caller _ 1 (mkPlayer "b" [⟨.blue, .num 1⟩])
    [⟨.blue, .num 9⟩] "a" (by decide) (by decide) (by decide) (by decide)

/-- Counterexample to C8 as stated: with the `seatId` omitted, no hand is
redacted — two states differing only in the card contents (same size) of
seat `b`'s hand give *different* snapshots, and the snapshot exposes the
full card contents of seat `b`. -/
theorem getPublicState_leaks_without_caller :
    getPublicState none
        (mkGame [mkPlayer "a" [⟨.red, .num 5⟩], mkPlayer "b" [⟨.blue, .num 1⟩]]
          [⟨.green, .num 3⟩] [⟨.red, .num 7⟩] ⟨.red, .num 7⟩ .red 0) ≠
      getPublicState none
        (mkGame [mkPlayer "a" [⟨.red, .num 5⟩], mkPlayer "b" [⟨.blue, .num 9⟩]]
          [⟨.green, .num 3⟩] [⟨.red, .num 7⟩] ⟨.red, .num 7⟩ .red 0) ∧
    (getPublicState none
        (mkGame [mkPlayer "a" [⟨.red, .num 5⟩], mkPlayer "b" [⟨.blue, .num 1⟩]]
          [⟨.green, .num 3⟩] [⟨.red, .num 7⟩] ⟨.red, .num 7⟩ .red 0)).players.map
        PublicPlayer.hand = [[⟨.red, .num 5⟩], [⟨.blue, .num 1⟩]] := by
  decide

/-! ### Claim C7 -/

/-- Every branch of `playCardSpecial` reports success. -/
theorem playCardSpecial_success (shuf : List Card → List Card) (now : Nat)
    (card : Card) (g : Game) (gs1 : GameState) :
    (playCardSpecial shuf now card g gs1).1.success = true := by
  simp only [playCardSpecial]
  repeat' split
  all_goals rfl

/-- Every branch of `playCardResolve` reports success. -/
theorem playCardResolve_success (shuf : List Card → List Card) (now : Nat)
    (ccol : Option Color) (playerIndex cardIndexN : Nat) (card : Card)
    (player : Player) (g : Game) :
    (playCardResolve shuf now ccol playerIndex cardIndexN card player g).1.success = true := by
  simp only [playCardResolve]
  repeat' split
  all_goals first
    | rfl
    | exact playCardSpecial_success ..

/-- Claim C7, amended: every failing public call returns
`{success: false, message}` (no exception, being a total function) and
leaves hands, deck, discard pile, turn index, sub-state flags unchanged:
a failing `playCard`, `endTurn` or `callUno` leaves the whole game —
including the armed turn deadline — untouched, while a failing `drawCard`
leaves the game state untouched and either leaves the deadline unchanged
(rejections before the timer handling) or clears it (the must-play-drawn-
card and has-playable-card rejections, which run after `clearTurnTimer`). -/
theorem failing_calls_atomic :
    (∀ (shuf : List Card → List Card) (now : Nat) (pid : String) (idx : Int)
        (ccol : Option Color) (g : Game),
        (playCard shuf now pid idx ccol g).1.success = false →
        (playCard shuf now pid idx ccol g).2 = g) ∧
    (∀ (now : Nat) (pid : String) (g : Game),
        (endTurn now pid g).1.success = false → (endTurn now pid g).2 = g) ∧
    (∀ (now : Nat) (pid : String) (g : Game),
        (callUno now pid g).1.success = false → (callUno now pid g).2 = g) ∧
    (∀ (shuf : List Card → List Card) (now : Nat) (pid : String) (g : Game),
        (drawCard shuf now pid g).1.success = false →
          (drawCard shuf now pid g).2.gameState = g.gameState ∧
          ((drawCard shuf now pid g).2 = g ∨
           ((drawCard shuf now pid g).2.turnExpiresAt = none ∧
            (drawCard shuf now pid g).2.turnStartTime = none))) := by
  refine ⟨?_, ?_, ?_, ?_⟩
  · intro shuf now pid idx ccol g
    simp only [playCard]
    repeat' split
    all_goals intro h
    all_goals first
      | rfl
      | exact absurd h (by simp [playCardResolve_success])
  · intro now pid g
    simp only [endTurn]
    repeat' split
    all_goals intro h
    all_goals first
      | rfl
      | exact absurd h (by simp)
  · intro now pid g
    simp only [callUno]
    repeat' split
    all_goals intro h
    all_goals first
      | rfl
      | exact absurd h (by simp)
  · intro shuf now pid g
    simp only [drawCard]
    repeat' split
    all_goals intro h
    all_goals first
      | exact ⟨rfl, Or.inl rfl⟩
      | exact ⟨rfl, Or.inr ⟨rfl, rfl⟩⟩
      | exact absurd h (by simp)

/-- Witness for C7 (amended): a concrete out-of-turn `playCard` fails and
leaves the game unchanged. -/
theorem failing_calls_atomic_witness :
    (playCard id 0 "b" 0 none
        (mkGame [mkPlayer "a" [⟨.red, .num 5⟩], mkPlayer "b" [⟨.blue, .num 1⟩]]
          [⟨.green, .num 3⟩] [⟨.red, .num 7⟩] ⟨.red, .num 7⟩ .red 0)).1.success = false ∧
    (playCard id 0 "b" 0 none
        (mkGame [mkPlayer "a" [⟨.red, .num 5⟩], mkPlayer "b" [⟨.blue, .num 1⟩]]
          [⟨.green, .num 3⟩] [⟨.red, .num 7⟩] ⟨.red, .num 7⟩ .red 0)).2 =
      mkGame [mkPlayer "a" [⟨.red, .num 5⟩], mkPlayer "b" [⟨.blue, .num 1⟩]]
        [⟨.green, .num 3⟩] [⟨.red, .num 7⟩] ⟨.red, .num 7⟩ .red 0 :=
  ⟨by decide, failing_calls_atomic.1 id 0 "b" 0 none _ (by decide)⟩

/-- Counterexample to C7 as stated: a `drawCard` rejected because the caller
still holds a playable card is *not* atomic — the armed turn deadline was
`some 15000` before the call and is cleared (never re-armed) by the failing
call. -/
theorem drawCard_rejection_clears_deadline :
    (drawCard id 0 "a"
        (mkGame [mkPlayer "a" [⟨.red, .num 5⟩], mkPlayer "b" [⟨.blue, .num 1⟩]]
          [⟨.green, .num 3⟩] [⟨.red, .num 7⟩] ⟨.red, .num 7⟩ .red 0)).1.success = false ∧
    (mkGame [mkPlayer "a" [⟨.red, .num 5⟩], mkPlayer "b" [⟨.blue, .num 1⟩]]
        [⟨.green, .num 3⟩] [⟨.red, .num 7⟩] ⟨.red, .num 7⟩ .red 0).turnExpiresAt =
      some 15000 ∧
    (drawCard id 0 "a"
        (mkGame [mkPlayer "a" [⟨.red, .num 5⟩], mkPlayer "b" [⟨.blue, .num 1⟩]]
          [⟨.green, .num 3⟩] [⟨.red, .num 7⟩] ⟨.red, .num 7⟩ .red 0)).2.turnExpiresAt =
      none := by
  decide


/-! ### Claim C3 -/


theorem reshuffleDeck_players (shuf : List Card → List Card) (gs : GameState) :
    (reshuffleDeck shuf gs).players = gs.players := by
  unfold reshuffleDeck
  repeat' split
  all_goals rfl

theorem drawOne_handLen (shuf : List Card → List Card) (gs : GameState) (i : Nat)
    (p : Player) (hget : gs.players.get? i = some p) :
    ∃ p', (drawOne shuf gs i).players.get? i = some p' ∧
      handLen p' = handLen p + 1 ∧ p'.hasUno = p.hasUno ∧
      p'.disconnected = p.disconnected := by
  have hi : i < gs.players.length := by
    rw [List.get?_eq_getElem?] at hget
    exact (List.getElem?_eq_some.mp hget).1
  have hre : (if gs.deck.length = 0 then reshuffleDeck shuf gs else gs).players =
      gs.players := by
    split
    · exact reshuffleDeck_players shuf gs
    · rfl
  simp only [drawOne, hre, hget]
  split
  · exact ⟨_, get?_set_self _ _ _ hi, by simp only [handLen]; omega, rfl, rfl⟩
  · exact ⟨_, get?_set_self _ _ _ hi,
      by simp only [handLen, List.length_append, List.length_singleton]; omega, rfl, rfl⟩



theorem reshuffleDeck_cpi (shuf : List Card → List Card) (gs : GameState) :
    (reshuffleDeck shuf gs).currentPlayerIndex = gs.currentPlayerIndex := by
  unfold reshuffleDeck
  repeat' split
  all_goals rfl

theorem drawOne_cpi (shuf : List Card → List Card) (gs : GameState) (i : Nat) :
    (drawOne shuf gs i).currentPlayerIndex = gs.currentPlayerIndex := by
  have hif : (if gs.deck.length = 0 then reshuffleDeck shuf gs else gs).currentPlayerIndex =
      gs.currentPlayerIndex := by
    split
    · exact reshuffleDeck_cpi shuf gs
    · rfl
  simp only [drawOne]
  repeat' split
  all_goals first
    | rfl
    | exact reshuffleDeck_cpi shuf gs

theorem handleTurnTimeout_players (shuf : List Card → List Card) (now : Nat) (g : Game)
    (hstatus : g.gameState.status = .playing) (harmed : ¬ g.turnExpiresAt = none) :
    (handleTurnTimeout shuf now g).gameState.players =
      (nextTurn { timeoutPenalty shuf g.gameState with hasDrawnPlayableCard := false }).players ∧
    (handleTurnTimeout shuf now g).gameState.waitingForUno = false := by
  simp only [handleTurnTimeout]
  rw [if_neg (by simp [hstatus]), if_neg harmed]
  split
  all_goals first
    | exact ⟨rfl, rfl⟩
    | (simp only [startTurnTimer, clearTurnTimer]
       repeat' split
       all_goals exact ⟨rfl, rfl⟩)



theorem timeoutPenalty_caseA (shuf : List Card → List Card) (gs : GameState) (p : Player)
    (hget : gs.players.get? gs.currentPlayerIndex = some p)
    (hA : gs.waitingForUno = true) (h1 : handLen p = 1) (hu : p.hasUno = false) :
    ∃ p3, (timeoutPenalty shuf gs).players.get? gs.currentPlayerIndex = some p3 ∧
      handLen p3 = handLen p + 2 := by
  obtain ⟨p1, hp1, hl1, -, -⟩ := drawOne_handLen shuf gs gs.currentPlayerIndex p hget
  obtain ⟨p2, hp2, hl2, -, -⟩ :=
    drawOne_handLen shuf (drawOne shuf gs gs.currentPlayerIndex) gs.currentPlayerIndex p1 hp1
  have hcpi1 : (drawOne shuf (drawOne shuf gs gs.currentPlayerIndex)
      gs.currentPlayerIndex).currentPlayerIndex = gs.currentPlayerIndex := by
    rw [drawOne_cpi, drawOne_cpi]
  have hlt : gs.currentPlayerIndex <
      (drawOne shuf (drawOne shuf gs gs.currentPlayerIndex)
        gs.currentPlayerIndex).players.length := by
    rw [List.get?_eq_getElem?] at hp2
    exact (List.getElem?_eq_some.mp hp2).1
  simp only [timeoutPenalty, hget]
  rw [if_pos ⟨hA, h1, by simp [hu]⟩, hcpi1]
  simp only [hp2]
  exact ⟨_, get?_set_self _ _ _ hlt, by simp [handLen] at hl1 hl2 ⊢; omega⟩

theorem timeoutPenalty_caseB (shuf : List Card → List Card) (gs : GameState) (p : Player)
    (hget : gs.players.get? gs.currentPlayerIndex = some p)
    (hnA : ¬ (gs.waitingForUno = true ∧ handLen p = 1 ∧ ¬ p.hasUno = true))
    (hB : gs.hasDrawnPlayableCard = true) :
    ∃ p3, (timeoutPenalty shuf gs).players.get? gs.currentPlayerIndex = some p3 ∧
      handLen p3 = handLen p := by
  simp only [timeoutPenalty, hget]
  rw [if_neg hnA, if_pos hB]
  exact ⟨p, hget, rfl⟩

theorem timeoutPenalty_caseC (shuf : List Card → List Card) (gs : GameState) (p : Player)
    (hget : gs.players.get? gs.currentPlayerIndex = some p)
    (hnA : ¬ (gs.waitingForUno = true ∧ handLen p = 1 ∧ ¬ p.hasUno = true))
    (hC : gs.hasDrawnPlayableCard = false) :
    ∃ p3, (timeoutPenalty shuf gs).players.get? gs.currentPlayerIndex = some p3 ∧
      handLen p3 = handLen p + 1 := by
  obtain ⟨p1, hp1, hl1, -, -⟩ := drawOne_handLen shuf gs gs.currentPlayerIndex p hget
  have hcpi1 : (drawOne shuf gs gs.currentPlayerIndex).currentPlayerIndex =
      gs.currentPlayerIndex := drawOne_cpi ..
  have hlt : gs.currentPlayerIndex < (drawOne shuf gs gs.currentPlayerIndex).players.length := by
    rw [List.get?_eq_getElem?] at hp1
    exact (List.getElem?_eq_some.mp hp1).1
  simp only [timeoutPenalty, hget]
  rw [if_neg hnA, if_neg (by simp [hC]), hcpi1]
  simp only [hp1]
  by_cases hgt : handLen p1 > 1
  · rw [if_pos hgt]
    exact ⟨_, get?_set_self _ _ _ hlt, by simpa [handLen] using hl1⟩
  · rw [if_neg hgt]
    exact ⟨p1, hp1, hl1⟩



theorem handleTurnTimeout_get (shuf : List Card → List Card) (now : Nat) (g : Game)
    (hstatus : g.gameState.status = .playing) (harmed : ¬ g.turnExpiresAt = none)
    (p3 : Player)
    (hp3 : (timeoutPenalty shuf g.gameState).players.get?
      g.gameState.currentPlayerIndex = some p3) :
    (handleTurnTimeout shuf now g).gameState.players.get?
      g.gameState.currentPlayerIndex = some { p3 with hasUno := false } := by
  obtain ⟨hpl, -⟩ := handleTurnTimeout_players shuf now g hstatus harmed
  rw [hpl]
  simp only [nextTurn]
  rw [get?_map_opt]
  have hsame : ({ timeoutPenalty shuf g.gameState with
      hasDrawnPlayableCard := false } : GameState).players =
      (timeoutPenalty shuf g.gameState).players := rfl
  rw [hsame, hp3]
  rfl

/-- Claim C3: a `handleTurnTimeout` that is not ignored by the race guard
applies exactly one penalty to the timed-out seat, by sub-state: in the
waiting-for-declaration sub-state (`waitingForUno` with exactly one card
and no declaration) the hand grows by exactly 2 cards and the declaration
requirement is cleared; in the drawn-and-deciding sub-state the hand grows
by exactly 0 cards; otherwise it grows by exactly 1 card. -/
theorem handleTurnTimeout_penalties
    (shuf : List Card → List Card) (now : Nat) (g : Game) (p : Player)
    (hstatus : g.gameState.status = .playing)
    (harmed : ¬ g.turnExpiresAt = none)
    (hget : g.gameState.players.get? g.gameState.currentPlayerIndex = some p) :
    ((g.gameState.waitingForUno = true ∧ handLen p = 1 ∧ p.hasUno = false) →
      ∃ p', (handleTurnTimeout shuf now g).gameState.players.get?
          g.gameState.currentPlayerIndex = some p' ∧ handLen p' = handLen p + 2) ∧
    (¬ (g.gameState.waitingForUno = true ∧ handLen p = 1 ∧ p.hasUno = false) →
      g.gameState.hasDrawnPlayableCard = true →
      ∃ p', (handleTurnTimeout shuf now g).gameState.players.get?
          g.gameState.currentPlayerIndex = some p' ∧ handLen p' = handLen p) ∧
    (¬ (g.gameState.waitingForUno = true ∧ handLen p = 1 ∧ p.hasUno = false) →
      g.gameState.hasDrawnPlayableCard = false →
      ∃ p', (handleTurnTimeout shuf now g).gameState.players.get?
          g.gameState.currentPlayerIndex = some p' ∧ handLen p' = handLen p + 1) ∧
    (handleTurnTimeout shuf now g).gameState.waitingForUno = false := by
  obtain ⟨-, hwf⟩ := handleTurnTimeout_players shuf now g hstatus harmed
  refine ⟨?_, ?_, ?_, hwf⟩
  · rintro ⟨hA, h1, hu⟩
    obtain ⟨p3, hp3, hl3⟩ := timeoutPenalty_caseA shuf g.gameState p hget hA h1 hu
    exact ⟨_, handleTurnTimeout_get shuf now g hstatus harmed p3 hp3,
      by simpa [handLen] using hl3⟩
  · intro hnA hB
    obtain ⟨p3, hp3, hl3⟩ := timeoutPenalty_caseB shuf g.gameState p hget
      (by simpa using hnA) hB
    exact ⟨_, handleTurnTimeout_get shuf now g hstatus harmed p3 hp3,
      by simpa [handLen] using hl3⟩
  · intro hnA hC
    obtain ⟨p3, hp3, hl3⟩ := timeoutPenalty_caseC shuf g.gameState p hget
      (by simpa using hnA) hC
    exact ⟨_, handleTurnTimeout_get shuf now g hstatus harmed p3 hp3,
      by simpa [handLen] using hl3⟩

/-- Witness for C3: a bare timeout (neither sub-state set) grows the
timed-out seat's hand by exactly one card. -/
theorem handleTurnTimeout_penalties_witness :
    ∃ p', (handleTurnTimeout id 0
        (mkGame [mkPlayer "a" [⟨.red, .num 5⟩], mkPlayer "b" [⟨.blue, .num 1⟩]]
          [⟨.green, .num 3⟩] [⟨.red, .num 7⟩] ⟨.red, .num 7⟩ .red 0)).gameState.players.get?
        (mkGame [mkPlayer "a" [⟨.red, .num 5⟩], mkPlayer "b" [⟨.blue, .num 1⟩]]
          [⟨.green, .num 3⟩] [⟨.red, .num 7⟩] ⟨.red, .num 7⟩ .red 0).gameState.currentPlayerIndex =
        some p' ∧
      handLen p' = handLen (mkPlayer "a" [⟨.red, .num 5⟩]) + 1 :=
  (handleTurnTimeout_penalties id 0
      (mkGame [mkPlayer "a" [⟨.red, .num 5⟩], mkPlayer "b" [⟨.blue, .num 1⟩]]
        [⟨.green, .num 3⟩] [⟨.red, .num 7⟩] ⟨.red, .num 7⟩ .red 0)
      (mkPlayer "a" [⟨.red, .num 5⟩]) (by decide) (by decide) (by decide)).2.2.1
    (by decide) (by decide)



/-! ### Claim C4 -/


theorem stepIdx_eq (n : Nat) (hn : 1 ≤ n) (d : Int) (hd : d = 1 ∨ d = -1) (i : Nat) :
    stepIdx n d i = (i + (if d = 1 then 1 else n - 1)) % n := by
  rcases hd with rfl | rfl
  · simp only [if_pos rfl]
    unfold stepIdx
    have h1 : ((i : Int) + 1 + n) = ((i + 1 + n : Nat) : Int) := by push_cast; ring
    rw [h1, ← Int.natCast_mod, Int.toNat_natCast, Nat.add_mod_right]
    simp
  · have hne : ¬ ((-1 : Int) = 1) := by decide
    simp only [if_neg hne]
    unfold stepIdx
    have hcast : ((n - 1 : Nat) : Int) = (n : Int) - 1 := by
      rw [Nat.cast_sub hn]; simp
    have h1 : ((i : Int) + -1 + n) = ((i + (n - 1) : Nat) : Int) := by
      push_cast [hcast]; ring
    rw [h1, ← Int.natCast_mod, Int.toNat_natCast]

theorem seat_eq_orig_iff (n : Nat) (hn : 2 ≤ n) (orig : Nat) (horig : orig < n)
    (d' : Nat) (hd' : d' = 1 ∨ d' = n - 1) (k : Nat) (hk1 : 1 ≤ k) (hkn : k ≤ n) :
    (orig + k * d') % n = orig ↔ k = n := by
  have hco : Nat.Coprime n d' := by
    rcases hd' with rfl | rfl
    · exact Nat.coprime_one_right n
    · have h1 : n - 1 + 1 = n := by omega
      have h2 := (Nat.coprime_self_add_left (m := n - 1) (n := 1))
      rw [h1] at h2
      exact h2.mpr (Nat.coprime_one_left _)
  constructor
  · intro h
    have h2 : Nat.ModEq n (orig + k * d') (orig + 0) := by
      show (orig + k * d') % n = (orig + 0) % n
      rw [Nat.add_zero, Nat.mod_eq_of_lt horig]
      exact h
    have h3 : Nat.ModEq n (k * d') 0 := Nat.ModEq.add_left_cancel' orig h2
    have hdvd : n ∣ k * d' := Nat.modEq_zero_iff_dvd.mp h3
    have hk : n ∣ k := hco.dvd_of_dvd_mul_right hdvd
    have := Nat.le_of_dvd (by omega) hk
    omega
  · rintro rfl
    rw [Nat.mul_comm, Nat.add_mul_mod_self_right]
    exact Nat.mod_eq_of_lt horig



theorem skipLoop_spec_aux (ps : List Player) (d : Int) (orig : Nat) (d' : Nat)
    (hn : 2 ≤ ps.length) (horig : orig < ps.length)
    (hstep : ∀ i, stepIdx ps.length d i = (i + d') % ps.length)
    (hd' : d' = 1 ∨ d' = ps.length - 1) :
    ∀ (fuel m : Nat), 1 ≤ m → m ≤ ps.length - 1 → ps.length - m ≤ fuel →
      (∃ k, m ≤ k ∧ k ≤ ps.length - 1 ∧
        discAt ps ((orig + k * d') % ps.length) = false ∧
        (∀ j, m ≤ j → j < k → discAt ps ((orig + j * d') % ps.length) = true) ∧
        skipLoop ps d orig ((orig + m * d') % ps.length) fuel =
          .found ((orig + k * d') % ps.length)) ∨
      ((∀ j, m ≤ j → j ≤ ps.length - 1 → discAt ps ((orig + j * d') % ps.length) = true) ∧
        skipLoop ps d orig ((orig + m * d') % ps.length) fuel =
          .pause ((orig + (ps.length - 1) * d') % ps.length)) := by
  intro fuel
  induction fuel with
  | zero => intro m hm1 hm2 hfuel; omega
  | succ fuel ih =>
    intro m hm1 hm2 hfuel
    rw [skipLoop]
    by_cases hdm : discAt ps ((orig + m * d') % ps.length) = true
    · rw [if_pos hdm]
      have hnext : stepIdx ps.length d ((orig + m * d') % ps.length) =
          (orig + (m + 1) * d') % ps.length := by
        rw [hstep, Nat.mod_add_mod]
        congr 1
        ring
      rw [hnext]
      by_cases hpause : (orig + (m + 1) * d') % ps.length = orig
      · rw [if_pos hpause]
        have hmn : m + 1 = ps.length :=
          (seat_eq_orig_iff ps.length hn orig horig d' hd' (m + 1) (by omega)
            (by omega)).mp hpause
        have hm' : m = ps.length - 1 := by omega
        right
        refine ⟨?_, by rw [hm']⟩
        intro j hj1 hj2
        have hjm : j = m := by omega
        rw [hjm]
        exact hdm
      · rw [if_neg hpause]
        have hmn : m + 1 ≠ ps.length := fun hc =>
          hpause ((seat_eq_orig_iff ps.length hn orig horig d' hd' (m + 1) (by omega)
            (by omega)).mpr hc)
        rcases ih (m + 1) (by omega) (by omega) (by omega) with
          ⟨k, hk1, hk2, hk3, hk4, hk5⟩ | ⟨hall, hres⟩
        · left
          refine ⟨k, by omega, hk2, hk3, ?_, hk5⟩
          intro j hj1 hj2
          rcases Nat.eq_or_lt_of_le hj1 with hj | hj
          · rw [← hj]; exact hdm
          · exact hk4 j (by omega) hj2
        · right
          refine ⟨?_, hres⟩
          intro j hj1 hj2
          rcases Nat.eq_or_lt_of_le hj1 with hj | hj
          · rw [← hj]; exact hdm
          · exact hall j (by omega) hj2
    · rw [if_neg hdm]
      left
      exact ⟨m, Nat.le_refl m, hm2, by simpa using hdm,
        fun j hj1 hj2 => by omega, rfl⟩



theorem discAt_set (ps : List Player) (i : Nat) (p p' : Player)
    (hget : ps.get? i = some p) (hd : p'.disconnected = p.disconnected) (j : Nat) :
    discAt (ps.set i p') j = discAt ps j := by
  by_cases hij : i = j
  · subst hij
    have hi : i < ps.length := by
      rw [List.get?_eq_getElem?] at hget
      exact (List.getElem?_eq_some.mp hget).1
    rw [discAt, get?_set_self _ _ _ hi, discAt, hget]
    simp [hd]
  · rw [discAt, get?_set_ne _ hij, discAt]

theorem reshuffle_if_players (shuf : List Card → List Card) (gs : GameState) :
    (if gs.deck.length = 0 then reshuffleDeck shuf gs else gs).players = gs.players := by
  split
  · exact reshuffleDeck_players shuf gs
  · rfl

theorem reshuffleDeck_fields (shuf : List Card → List Card) (gs : GameState) :
    (reshuffleDeck shuf gs).direction = gs.direction ∧
    (reshuffleDeck shuf gs).status = gs.status := by
  unfold reshuffleDeck
  repeat' split
  all_goals exact ⟨rfl, rfl⟩

theorem reshuffle_if_fields (shuf : List Card → List Card) (gs : GameState) :
    (if gs.deck.length = 0 then reshuffleDeck shuf gs else gs).direction = gs.direction ∧
    (if gs.deck.length = 0 then reshuffleDeck shuf gs else gs).status = gs.status := by
  split
  · exact reshuffleDeck_fields shuf gs
  · exact ⟨rfl, rfl⟩

theorem drawOne_pres (shuf : List Card → List Card) (gs : GameState) (i : Nat) :
    (∀ j, discAt (drawOne shuf gs i).players j = discAt gs.players j) ∧
    (drawOne shuf gs i).players.length = gs.players.length ∧
    (drawOne shuf gs i).direction = gs.direction ∧
    (drawOne shuf gs i).status = gs.status := by
  obtain ⟨hdir, hst⟩ := reshuffle_if_fields shuf gs
  simp only [drawOne, reshuffle_if_players]
  cases hget : gs.players.get? i with
  | none =>
    simp only [hget]
    exact ⟨fun j => by rw [reshuffle_if_players], by rw [reshuffle_if_players], hdir, hst⟩
  | some p =>
    simp only [hget]
    cases hdeck : (if gs.deck.length = 0 then reshuffleDeck shuf gs else gs).deck with
    | nil =>
      simp only [hdeck]
      exact ⟨fun j => discAt_set gs.players i p { p with junk := p.junk + 1 } hget rfl j,
        List.length_set .., hdir, hst⟩
    | cons card rest =>
      simp only [hdeck]
      exact ⟨fun j => discAt_set gs.players i p { p with hand := p.hand ++ [card] } hget rfl j,
        List.length_set .., hdir, hst⟩



theorem timeoutPenalty_pres (shuf : List Card → List Card) (gs : GameState) :
    (∀ j, discAt (timeoutPenalty shuf gs).players j = discAt gs.players j) ∧
    (timeoutPenalty shuf gs).players.length = gs.players.length ∧
    (timeoutPenalty shuf gs).direction = gs.direction ∧
    (timeoutPenalty shuf gs).status = gs.status ∧
    (timeoutPenalty shuf gs).currentPlayerIndex = gs.currentPlayerIndex := by
  simp only [timeoutPenalty]
  cases hget : gs.players.get? gs.currentPlayerIndex with
  | none =>
    simp [hget]
  | some p =>
    simp only [hget]
    split
    · -- declaration penalty: two draws, then reset hasUno
      obtain ⟨hd1, hl1, hdir1, hst1⟩ := drawOne_pres shuf gs gs.currentPlayerIndex
      obtain ⟨hd2, hl2, hdir2, hst2⟩ :=
        drawOne_pres shuf (drawOne shuf gs gs.currentPlayerIndex) gs.currentPlayerIndex
      cases hget2 : (drawOne shuf (drawOne shuf gs gs.currentPlayerIndex)
          gs.currentPlayerIndex).players.get?
            (drawOne shuf (drawOne shuf gs gs.currentPlayerIndex)
              gs.currentPlayerIndex).currentPlayerIndex with
      | none =>
        simp only [hget2]
        exact ⟨fun j => by rw [hd2 j, hd1 j], by rw [hl2, hl1],
          by rw [hdir2, hdir1], by rw [hst2, hst1], by rw [drawOne_cpi, drawOne_cpi]⟩
      | some q =>
        simp only [hget2]
        refine ⟨fun j => ?_, ?_, ?_, ?_, ?_⟩
        · rw [discAt_set _ _ q { q with hasUno := false } hget2 rfl j, hd2 j, hd1 j]
        · rw [List.length_set, hl2, hl1]
        · rw [hdir2, hdir1]
        · rw [hst2, hst1]
        · rw [drawOne_cpi, drawOne_cpi]
    · split
      · -- drawn-and-deciding: no draw
        exact ⟨fun j => rfl, rfl, rfl, rfl, rfl⟩
      · -- normal timeout: one draw, conditional hasUno reset
        obtain ⟨hd1, hl1, hdir1, hst1⟩ := drawOne_pres shuf gs gs.currentPlayerIndex
        cases hget2 : (drawOne shuf gs gs.currentPlayerIndex).players.get?
            (drawOne shuf gs gs.currentPlayerIndex).currentPlayerIndex with
        | none =>
          simp only [hget2]
          exact ⟨fun j => hd1 j, hl1, hdir1, hst1, drawOne_cpi ..⟩
        | some q =>
          simp only [hget2]
          by_cases hgt : handLen q > 1
          · rw [if_pos hgt]
            refine ⟨fun j => ?_, ?_, ?_, ?_, ?_⟩
            · rw [discAt_set _ _ q { q with hasUno := false } hget2 rfl j, hd1 j]
            · rw [List.length_set, hl1]
            · rw [hdir1]
            · rw [hst1]
            · rw [drawOne_cpi]
          · rw [if_neg hgt]
            exact ⟨fun j => hd1 j, hl1, hdir1, hst1, drawOne_cpi ..⟩



theorem nextTurn_pres (gs : GameState) :
    (∀ j, discAt (nextTurn gs).players j = discAt gs.players j) ∧
    (nextTurn gs).players.length = gs.players.length ∧
    (nextTurn gs).direction = gs.direction ∧
    (nextTurn gs).status = gs.status ∧
    (nextTurn gs).currentPlayerIndex =
      stepIdx gs.players.length gs.direction gs.currentPlayerIndex := by
  refine ⟨fun j => ?_, List.length_map .., rfl, rfl, rfl⟩
  simp only [nextTurn, discAt, get?_map_opt]
  cases gs.players.get? j <;> rfl

theorem startTurnTimer_gameState (now : Nat) (g : Game) :
    (startTurnTimer now g).gameState = g.gameState := by
  simp only [startTurnTimer, clearTurnTimer]
  repeat' split
  all_goals rfl

theorem startTurnTimer_arms (now : Nat) (g : Game)
    (h1 : g.gameState.status = .playing)
    (h2 : g.gameState.currentPlayerIndex < g.gameState.players.length) :
    (startTurnTimer now g).turnExpiresAt = some (now + turnTimeLimit) := by
  simp only [startTurnTimer, clearTurnTimer]
  rw [if_neg (by simp [h1]), if_neg (by omega), if_neg (by omega)]

/-- Claim C4, amended: after the timeout penalty the engine walks the seats
strictly after the timed-out seat in direction order; it lands on the first
non-disconnected one and re-arms the timer.  Only when every *other* seat
is disconnected does it pause — regardless of the timed-out seat's own
status — leaving `currentPlayerIndex` on the seat just before wrapping back
to the timed-out seat (a disconnected seat) and the timer unarmed. -/
theorem handleTurnTimeout_advance
    (shuf : List Card → List Card) (now : Nat) (g : Game)
    (hstatus : g.gameState.status = .playing)
    (harmed : ¬ g.turnExpiresAt = none)
    (hn : 2 ≤ g.gameState.players.length)
    (horig : g.gameState.currentPlayerIndex < g.gameState.players.length)
    (hd : g.gameState.direction = 1 ∨ g.gameState.direction = -1) :
    (∃ k, 1 ≤ k ∧ k ≤ g.gameState.players.length - 1 ∧
        discAt g.gameState.players
          (seatAfter g.gameState.players.length g.gameState.direction
            g.gameState.currentPlayerIndex k) = false ∧
        (∀ j, 1 ≤ j → j < k → discAt g.gameState.players
          (seatAfter g.gameState.players.length g.gameState.direction
            g.gameState.currentPlayerIndex j) = true) ∧
        (handleTurnTimeout shuf now g).gameState.currentPlayerIndex =
          seatAfter g.gameState.players.length g.gameState.direction
            g.gameState.currentPlayerIndex k ∧
        (handleTurnTimeout shuf now g).turnExpiresAt = some (now + turnTimeLimit)) ∨
    ((∀ j, 1 ≤ j → j ≤ g.gameState.players.length - 1 →
        discAt g.gameState.players
          (seatAfter g.gameState.players.length g.gameState.direction
            g.gameState.currentPlayerIndex j) = true) ∧
      (handleTurnTimeout shuf now g).gameState.currentPlayerIndex =
        seatAfter g.gameState.players.length g.gameState.direction
          g.gameState.currentPlayerIndex (g.gameState.players.length - 1) ∧
      (handleTurnTimeout shuf now g).turnExpiresAt = none) := by
  obtain ⟨hdP, hlP, hdirP, hstP, hcpiP⟩ := timeoutPenalty_pres shuf g.gameState
  obtain ⟨hdQ, hlQ, hdirQ, hstQ, hcpiQ⟩ :=
    nextTurn_pres { timeoutPenalty shuf g.gameState with hasDrawnPlayableCard := false }
  have hQd : ∀ j, discAt (nextTurn { timeoutPenalty shuf g.gameState with
      hasDrawnPlayableCard := false }).players j = discAt g.gameState.players j := by
    intro j
    rw [hdQ j]
    exact hdP j
  have hQl : (nextTurn { timeoutPenalty shuf g.gameState with
      hasDrawnPlayableCard := false }).players.length = g.gameState.players.length := by
    rw [hlQ]
    exact hlP
  have hQdir : (nextTurn { timeoutPenalty shuf g.gameState with
      hasDrawnPlayableCard := false }).direction = g.gameState.direction := by
    rw [hdirQ]
    exact hdirP
  have hQst : (nextTurn { timeoutPenalty shuf g.gameState with
      hasDrawnPlayableCard := false }).status = Status.playing := by
    rw [hstQ]
    rw [show ({ timeoutPenalty shuf g.gameState with
      hasDrawnPlayableCard := false } : GameState).status =
        (timeoutPenalty shuf g.gameState).status from rfl, hstP]
    exact hstatus
  have hQcpi : (nextTurn { timeoutPenalty shuf g.gameState with
      hasDrawnPlayableCard := false }).currentPlayerIndex =
      (g.gameState.currentPlayerIndex + 1 *
        (if g.gameState.direction = 1 then 1
         else g.gameState.players.length - 1)) % g.gameState.players.length := by
    rw [hcpiQ]
    rw [show ({ timeoutPenalty shuf g.gameState with
      hasDrawnPlayableCard := false } : GameState).players.length =
        g.gameState.players.length from hlP]
    rw [show ({ timeoutPenalty shuf g.gameState with
      hasDrawnPlayableCard := false } : GameState).direction =
        g.gameState.direction from hdirP]
    rw [show ({ timeoutPenalty shuf g.gameState with
      hasDrawnPlayableCard := false } : GameState).currentPlayerIndex =
        g.gameState.currentPlayerIndex from hcpiP]
    rw [stepIdx_eq g.gameState.players.length (by omega) g.gameState.direction hd]
    rw [Nat.one_mul]
  have hstep : ∀ i, stepIdx (nextTurn { timeoutPenalty shuf g.gameState with
      hasDrawnPlayableCard := false }).players.length g.gameState.direction i =
      (i + (if g.gameState.direction = 1 then 1
        else g.gameState.players.length - 1)) %
        (nextTurn { timeoutPenalty shuf g.gameState with
          hasDrawnPlayableCard := false }).players.length := by
    intro i
    rw [hQl, stepIdx_eq g.gameState.players.length (by omega) g.gameState.direction hd]
  have haux := skipLoop_spec_aux
    (nextTurn { timeoutPenalty shuf g.gameState with
      hasDrawnPlayableCard := false }).players
    g.gameState.direction g.gameState.currentPlayerIndex
    (if g.gameState.direction = 1 then 1 else g.gameState.players.length - 1)
    (by rw [hQl]; exact hn) (by rw [hQl]; exact horig) hstep
    (by rw [hQl]; split <;> simp)
    (nextTurn { timeoutPenalty shuf g.gameState with
      hasDrawnPlayableCard := false }).players.length
    1 (le_refl 1) (by rw [hQl]; omega) (by omega)
  rw [hQl] at haux
  simp only [hQd] at haux
  simp only [handleTurnTimeout]
  rw [if_neg (by simp [hstatus]), if_neg harmed, hQdir, hQcpi, hQl]
  rcases haux with ⟨k, hk1, hk2, hk3, hk4, hk5⟩ | ⟨hall, hres⟩
  · left
    refine ⟨k, hk1, hk2, hk3, hk4, ?_, ?_⟩
    · simp only [hk5]
      rw [startTurnTimer_gameState]
      rfl
    · simp only [hk5]
      refine startTurnTimer_arms now _ hQst ?_
      show (g.gameState.currentPlayerIndex + k *
          (if g.gameState.direction = 1 then 1
           else g.gameState.players.length - 1)) % g.gameState.players.length <
        (nextTurn { timeoutPenalty shuf g.gameState with
          hasDrawnPlayableCard := false }).players.length
      rw [hQl]
      exact Nat.mod_lt _ (by omega)
  · right
    refine ⟨hall, ?_, ?_⟩
    · simp only [hres]
      rfl
    · simp only [hres]
      rfl


/-- Witness for C4 (amended): seat 0 of a three-seat game times out while
seat 1 is disconnected and seat 2 is connected; the conclusion holds there
(the first disjunct fires with k = 2). -/
theorem handleTurnTimeout_advance_witness :
    (∃ k, 1 ≤ k ∧ k ≤ (mkGame [mkPlayer "a" [⟨.red, .num 5⟩],
          { mkPlayer "b" [⟨.blue, .num 1⟩] with disconnected := true },
          mkPlayer "c" [⟨.green, .num 2⟩]]
        [⟨.green, .num 3⟩, ⟨.yellow, .num 4⟩] [⟨.red, .num 7⟩]
        ⟨.red, .num 7⟩ .red 0).gameState.players.length - 1 ∧
      discAt (mkGame [mkPlayer "a" [⟨.red, .num 5⟩],
          { mkPlayer "b" [⟨.blue, .num 1⟩] with disconnected := true },
          mkPlayer "c" [⟨.green, .num 2⟩]]
        [⟨.green, .num 3⟩, ⟨.yellow, .num 4⟩] [⟨.red, .num 7⟩]
        ⟨.red, .num 7⟩ .red 0).gameState.players
        (seatAfter (mkGame [mkPlayer "a" [⟨.red, .num 5⟩],
            { mkPlayer "b" [⟨.blue, .num 1⟩] with disconnected := true },
            mkPlayer "c" [⟨.green, .num 2⟩]]
          [⟨.green, .num 3⟩, ⟨.yellow, .num 4⟩] [⟨.red, .num 7⟩]
          ⟨.red, .num 7⟩ .red 0).gameState.players.length
          (mkGame [mkPlayer "a" [⟨.red, .num 5⟩],
            { mkPlayer "b" [⟨.blue, .num 1⟩] with disconnected := true },
            mkPlayer "c" [⟨.green, .num 2⟩]]
          [⟨.green, .num 3⟩, ⟨.yellow, .num 4⟩] [⟨.red, .num 7⟩]
          ⟨.red, .num 7⟩ .red 0).gameState.direction
          (mkGame [mkPlayer "a" [⟨.red, .num 5⟩],
            { mkPlayer "b" [⟨.blue, .num 1⟩] with disconnected := true },
            mkPlayer "c" [⟨.green, .num 2⟩]]
          [⟨.green, .num 3⟩, ⟨.yellow, .num 4⟩] [⟨.red, .num 7⟩]
          ⟨.red, .num 7⟩ .red 0).gameState.currentPlayerIndex k) = false ∧
      (∀ j, 1 ≤ j → j < k → discAt (mkGame [mkPlayer "a" [⟨.red, .num 5⟩],
          { mkPlayer "b" [⟨.blue, .num 1⟩] with disconnected := true },
          mkPlayer "c" [⟨.green, .num 2⟩]]
        [⟨.green, .num 3⟩, ⟨.yellow, .num 4⟩] [⟨.red, .num 7⟩]
        ⟨.red, .num 7⟩ .red 0).gameState.players
        (seatAfter (mkGame [mkPlayer "a" [⟨.red, .num 5⟩],
            { mkPlayer "b" [⟨.blue, .num 1⟩] with disconnected := true },
            mkPlayer "c" [⟨.green, .num 2⟩]]
          [⟨.green, .num 3⟩, ⟨.yellow, .num 4⟩] [⟨.red, .num 7⟩]
          ⟨.red, .num 7⟩ .red 0).gameState.players.length
          (mkGame [mkPlayer "a" [⟨.red, .num 5⟩],
            { mkPlayer "b" [⟨.blue, .num 1⟩] with disconnected := true },
            mkPlayer "c" [⟨.green, .num 2⟩]]
          [⟨.green, .num 3⟩, ⟨.yellow, .num 4⟩] [⟨.red, .num 7⟩]
          ⟨.red, .num 7⟩ .red 0).gameState.direction
          (mkGame [mkPlayer "a" [⟨.red, .num 5⟩],
            { mkPlayer "b" [⟨.blue, .num 1⟩] with disconnected := true },
            mkPlayer "c" [⟨.green, .num 2⟩]]
          [⟨.green, .num 3⟩, ⟨.yellow, .num 4⟩] [⟨.red, .num 7⟩]
          ⟨.red, .num 7⟩ .red 0).gameState.currentPlayerIndex j) = true) ∧
      (handleTurnTimeout id 0 (mkGame [mkPlayer "a" [⟨.red, .num 5⟩],
          { mkPlayer "b" [⟨.blue, .num 1⟩] with disconnected := true },
          mkPlayer "c" [⟨.green, .num 2⟩]]
        [⟨.green, .num 3⟩, ⟨.yellow, .num 4⟩] [⟨.red, .num 7⟩]
        ⟨.red, .num 7⟩ .red 0)).gameState.currentPlayerIndex =
        seatAfter (mkGame [mkPlayer "a" [⟨.red, .num 5⟩],
            { mkPlayer "b" [⟨.blue, .num 1⟩] with disconnected := true },
            mkPlayer "c" [⟨.green, .num 2⟩]]
          [⟨.green, .num 3⟩, ⟨.yellow, .num 4⟩] [⟨.red, .num 7⟩]
          ⟨.red, .num 7⟩ .red 0).gameState.players.length
          (mkGame [mkPlayer "a" [⟨.red, .num 5⟩],
            { mkPlayer "b" [⟨.blue, .num 1⟩] with disconnected := true },
            mkPlayer "c" [⟨.green, .num 2⟩]]
          [⟨.green, .num 3⟩, ⟨.yellow, .num 4⟩] [⟨.red, .num 7⟩]
          ⟨.red, .num 7⟩ .red 0).gameState.direction
          (mkGame [mkPlayer "a" [⟨.red, .num 5⟩],
            { mkPlayer "b" [⟨.blue, .num 1⟩] with disconnected := true },
            mkPlayer "c" [⟨.green, .num 2⟩]]
          [⟨.green, .num 3⟩, ⟨.yellow, .num 4⟩] [⟨.red, .num 7⟩]
          ⟨.red, .num 7⟩ .red 0).gameState.currentPlayerIndex k ∧
      (handleTurnTimeout id 0 (mkGame [mkPlayer "a" [⟨.red, .num 5⟩],
          { mkPlayer "b" [⟨.blue, .num 1⟩] with disconnected := true },
          mkPlayer "c" [⟨.green, .num 2⟩]]
        [⟨.green, .num 3⟩, ⟨.yellow, .num 4⟩] [⟨.red, .num 7⟩]
        ⟨.red, .num 7⟩ .red 0)).turnExpiresAt = some (0 + turnTimeLimit)) ∨
    ((∀ j, 1 ≤ j → j ≤ (mkGame [mkPlayer "a" [⟨.red, .num 5⟩],
          { mkPlayer "b" [⟨.blue, .num 1⟩] with disconnected := true },
          mkPlayer "c" [⟨.green, .num 2⟩]]
        [⟨.green, .num 3⟩, ⟨.yellow, .num 4⟩] [⟨.red, .num 7⟩]
        ⟨.red, .num 7⟩ .red 0).gameState.players.length - 1 →
        discAt (mkGame [mkPlayer "a" [⟨.red, .num 5⟩],
            { mkPlayer "b" [⟨.blue, .num 1⟩] with disconnected := true },
            mkPlayer "c" [⟨.green, .num 2⟩]]
          [⟨.green, .num 3⟩, ⟨.yellow, .num 4⟩] [⟨.red, .num 7⟩]
          ⟨.red, .num 7⟩ .red 0).gameState.players
          (seatAfter (mkGame [mkPlayer "a" [⟨.red, .num 5⟩],
              { mkPlayer "b" [⟨.blue, .num 1⟩] with disconnected := true },
              mkPlayer "c" [⟨.green, .num 2⟩]]
            [⟨.green, .num 3⟩, ⟨.yellow, .num 4⟩] [⟨.red, .num 7⟩]
            ⟨.red, .num 7⟩ .red 0).gameState.players.length
            (mkGame [mkPlayer "a" [⟨.red, .num 5⟩],
              { mkPlayer "b" [⟨.blue, .num 1⟩] with disconnected := true },
              mkPlayer "c" [⟨.green, .num 2⟩]]
            [⟨.green, .num 3⟩, ⟨.yellow, .num 4⟩] [⟨.red, .num 7⟩]
            ⟨.red, .num 7⟩ .red 0).gameState.direction
            (mkGame [mkPlayer "a" [⟨.red, .num 5⟩],
              { mkPlayer "b" [⟨.blue, .num 1⟩] with disconnected := true },
              mkPlayer "c" [⟨.green, .num 2⟩]]
            [⟨.green, .num 3⟩, ⟨.yellow, .num 4⟩] [⟨.red, .num 7⟩]
            ⟨.red, .num 7⟩ .red 0).gameState.currentPlayerIndex j) = true) ∧
      (handleTurnTimeout id 0 (mkGame [mkPlayer "a" [⟨.red, .num 5⟩],
          { mkPlayer "b" [⟨.blue, .num 1⟩] with disconnected := true },
          mkPlayer "c" [⟨.green, .num 2⟩]]
        [⟨.green, .num 3⟩, ⟨.yellow, .num 4⟩] [⟨.red, .num 7⟩]
        ⟨.red, .num 7⟩ .red 0)).gameState.currentPlayerIndex =
        seatAfter (mkGame [mkPlayer "a" [⟨.red, .num 5⟩],
            { mkPlayer "b" [⟨.blue, .num 1⟩] with disconnected := true },
            mkPlayer "c" [⟨.green, .num 2⟩]]
          [⟨.green, .num 3⟩, ⟨.yellow, .num 4⟩] [⟨.red, .num 7⟩]
          ⟨.red, .num 7⟩ .red 0).gameState.players.length
          (mkGame [mkPlayer "a" [⟨.red, .num 5⟩],
            { mkPlayer "b" [⟨.blue, .num 1⟩] with disconnected := true },
            mkPlayer "c" [⟨.green, .num 2⟩]]
          [⟨.green, .num 3⟩, ⟨.yellow, .num 4⟩] [⟨.red, .num 7⟩]
          ⟨.red, .num 7⟩ .red 0).gameState.direction
          (mkGame [mkPlayer "a" [⟨.red, .num 5⟩],
            { mkPlayer "b" [⟨.blue, .num 1⟩] with disconnected := true },
            mkPlayer "c" [⟨.green, .num 2⟩]]
          [⟨.green, .num 3⟩, ⟨.yellow, .num 4⟩] [⟨.red, .num 7⟩]
          ⟨.red, .num 7⟩ .red 0).gameState.currentPlayerIndex
          ((mkGame [mkPlayer "a" [⟨.red, .num 5⟩],
            { mkPlayer "b" [⟨.blue, .num 1⟩] with disconnected := true },
            mkPlayer "c" [⟨.green, .num 2⟩]]
          [⟨.green, .num 3⟩, ⟨.yellow, .num 4⟩] [⟨.red, .num 7⟩]
          ⟨.red, .num 7⟩ .red 0).gameState.players.length - 1) ∧
      (handleTurnTimeout id 0 (mkGame [mkPlayer "a" [⟨.red, .num 5⟩],
          { mkPlayer "b" [⟨.blue, .num 1⟩] with disconnected := true },
          mkPlayer "c" [⟨.green, .num 2⟩]]
        [⟨.green, .num 3⟩, ⟨.yellow, .num 4⟩] [⟨.red, .num 7⟩]
        ⟨.red, .num 7⟩ .red 0)).turnExpiresAt = none) :=
  handleTurnTimeout_advance id 0 _ (by decide) (by decide) (by decide) (by decide)
    (by decide)

/-- Counterexample to C4 as stated: seat 0 (connected) times out in a
two-seat game whose other seat is disconnected; the engine ends with
`currentPlayerIndex` on the *disconnected* seat 1 and the timer unarmed,
although not every seat is disconnected. -/
theorem handleTurnTimeout_pause_despite_active_seat :
    discAt (handleTurnTimeout id 0
        (mkGame [mkPlayer "a" [⟨.red, .num 5⟩],
          { mkPlayer "b" [⟨.blue, .num 1⟩] with disconnected := true }]
          [⟨.green, .num 3⟩] [⟨.red, .num 7⟩] ⟨.red, .num 7⟩ .red 0)).gameState.players
      (handleTurnTimeout id 0
        (mkGame [mkPlayer "a" [⟨.red, .num 5⟩],
          { mkPlayer "b" [⟨.blue, .num 1⟩] with disconnected := true }]
          [⟨.green, .num 3⟩] [⟨.red, .num 7⟩] ⟨.red, .num 7⟩ .red 0)).gameState.currentPlayerIndex
      = true ∧
    (mkGame [mkPlayer "a" [⟨.red, .num 5⟩],
        { mkPlayer "b" [⟨.blue, .num 1⟩] with disconnected := true }]
        [⟨.green, .num 3⟩] [⟨.red, .num 7⟩] ⟨.red, .num 7⟩ .red 0).gameState.players.all
      (fun p => p.disconnected) = false ∧
    (handleTurnTimeout id 0
        (mkGame [mkPlayer "a" [⟨.red, .num 5⟩],
          { mkPlayer "b" [⟨.blue, .num 1⟩] with disconnected := true }]
          [⟨.green, .num 3⟩] [⟨.red, .num 7⟩] ⟨.red, .num 7⟩ .red 0)).turnExpiresAt = none := by
  decide

/-! ### Claim C1 -/

set_option maxRecDepth 10000 in
/-- Claim C1 fails on the code: in a fresh two-player game (identity shuffle
oracle; the first discard is the yellow 9, so no wild-color randomness is
involved) the card-count invariant `|deck| + |discardPile| + Σ|hand_i| = 108`
holds after `drawFirstCard` and is preserved through 93 consecutive turn
timeouts, but the 94th timeout exhausts both the deck and the reshuffleable
discard pile (discard size 1): `reshuffleDeck` refuses, `deck.pop()` yields
`undefined`, and pushing it grows a hand array to make the total 109. -/
theorem totalCount_breaks_after_94_timeouts :
    totalCount ((drawFirstCard 0 Color.red id
        (Game.new ["a", "b"] ["A", "B"] [] id)).gameState) = 108 ∧
    totalCount (((handleTurnTimeout id 0)^[93]
        (drawFirstCard 0 Color.red id
          (Game.new ["a", "b"] ["A", "B"] [] id))).gameState) = 108 ∧
    totalCount (((handleTurnTimeout id 0)^[94]
        (drawFirstCard 0 Color.red id
          (Game.new ["a", "b"] ["A", "B"] [] id))).gameState) = 109 ∧
    (((handleTurnTimeout id 0)^[94]
        (drawFirstCard 0 Color.red id
          (Game.new ["a", "b"] ["A", "B"] [] id))).gameState.players.map
      Player.junk) = [0, 1] := by
  decide

end Soluno
